import Mathlib

/-
Verification development for the jedeschule-scraper repository
(jedeschule_lite).  The Python sources are shallowly embedded: pure
functions become Lean functions, network / library calls (requests, bs4,
xmltodict, pyproj, csv tokenisation) become explicit oracle parameters,
and fallible Python code returns `Except String`.  Machine floats that
flow through the scrapers are modelled as `Rat`; Python's shortest
round-trip float repr is not needed by any statement below, so `pyStr`
formats integers exactly and leaves other numbers in fraction notation.
-/

set_option maxHeartbeats 1000000

namespace JedeschuleLite

/-- Python runtime values as they appear in the scrapers: None, bools,
numbers, strings, lists and (insertion-ordered) dicts.  This is the
common shape of parsed JSON, xmltodict output and intermediate dicts. -/
inductive PyVal where
  | none : PyVal
  | bool (b : Bool) : PyVal
  | num (q : Rat) : PyVal
  | str (s : String) : PyVal
  | list (items : List PyVal) : PyVal
  | dict (fields : List (String × PyVal)) : PyVal

/-- Whether the pattern occurs at the head of the haystack. -/
def listStarts : List Char → List Char → Bool
  | _, [] => true
  | [], _ :: _ => false
  | a :: as, b :: bs => a == b && listStarts as bs

/-- Whether the pattern occurs anywhere in the haystack (Python `in`). -/
def listHasSub : List Char → List Char → Bool
  | [], pat => pat.isEmpty
  | h :: t, pat => listStarts (h :: t) pat || listHasSub t pat

def strHasSub (hay pat : String) : Bool := listHasSub hay.data pat.data

/-- Python `s.startswith(pat)`. -/
def strStarts (s pat : String) : Bool := listStarts s.data pat.data

/-- Python `str.lower()` on ASCII letters, which covers every key and
pattern compared in the scrapers. -/
def pyLowerChar (c : Char) : Char :=
  if 65 ≤ c.toNat && c.toNat ≤ 90 then Char.ofNat (c.toNat + 32) else c

def pyLower (s : String) : String := String.mk (s.data.map pyLowerChar)

/-- Python `str.strip()` with no argument: drop surrounding whitespace
(the ASCII whitespace classes cover every payload stated below). -/
def pyStrip (s : String) : String :=
  String.mk (((s.data.dropWhile Char.isWhitespace).reverse.dropWhile Char.isWhitespace).reverse)

/-- Python truthiness: None, False, 0, empty string/list/dict are falsy. -/
def pyTruthy : PyVal → Bool
  | PyVal.none => false
  | PyVal.bool b => b
  | PyVal.num q => if q = 0 then false else true
  | PyVal.str s => !s.data.isEmpty
  | PyVal.list xs => !xs.isEmpty
  | PyVal.dict fs => !fs.isEmpty

/-- Python `a or b`: returns `a` when truthy, else `b`. -/
def pyOr (a b : PyVal) : PyVal := if pyTruthy a then a else b

/-- First binding for a key in an insertion-ordered dict. -/
def dictFind : List (String × PyVal) → String → Option PyVal
  | [], _ => Option.none
  | (k, v) :: rest, key => if k = key then some v else dictFind rest key

/-- Python `d[key] = v`: overwrite in place, or append a new binding. -/
def dictSetFields : List (String × PyVal) → String → PyVal → List (String × PyVal)
  | [], key, v => [(key, v)]
  | (k, w) :: rest, key, v =>
    if k = key then (k, v) :: rest else (k, w) :: dictSetFields rest key v

/-- Python `d[key] = v` on a value: only dicts support it. -/
def pySetItem (d : PyVal) (key : String) (v : PyVal) : Except String PyVal :=
  match d with
  | PyVal.dict fs => Except.ok (PyVal.dict (dictSetFields fs key v))
  | _ => Except.error "TypeError: object does not support item assignment"

/-- Python `v.get(key, dflt)`; raises AttributeError when `v` is not a dict. -/
def pyGetDE (v : PyVal) (key : String) (dflt : PyVal) : Except String PyVal :=
  match v with
  | PyVal.dict fs => Except.ok ((dictFind fs key).getD dflt)
  | _ => Except.error "AttributeError: no attribute get"

/-- Total `v.get(key, dflt)` for positions where `v` is already known to
be a dict (the default is returned for non-dicts, which those positions
never reach). -/
def pyGetD (v : PyVal) (key : String) (dflt : PyVal) : PyVal :=
  match v with
  | PyVal.dict fs => (dictFind fs key).getD dflt
  | _ => dflt

/-- Python `v[key]` on a dict: KeyError when absent. -/
def pyIndexKey (v : PyVal) (key : String) : Except String PyVal :=
  match v with
  | PyVal.dict fs =>
    match dictFind fs key with
    | some x => Except.ok x
    | Option.none => Except.error ("KeyError: " ++ key)
  | _ => Except.error "TypeError: object is not subscriptable"

/-- Python `key in v` for dicts. -/
def pyHasKey (v : PyVal) (key : String) : Bool :=
  match v with
  | PyVal.dict fs => (dictFind fs key).isSome
  | _ => false

/-- Python iteration `for x in v`: lists yield items, strings yield
characters, dicts yield their keys; other values raise TypeError. -/
def pyIter : PyVal → Except String (List PyVal)
  | PyVal.list xs => Except.ok xs
  | PyVal.str s => Except.ok (s.data.map (fun c => PyVal.str (String.singleton c)))
  | PyVal.dict fs => Except.ok (fs.map (fun kv => PyVal.str kv.1))
  | _ => Except.error "TypeError: object is not iterable"

/-- Python `len(v)` for sized values. -/
def pyLen : PyVal → Except String Nat
  | PyVal.list xs => Except.ok xs.length
  | PyVal.str s => Except.ok s.length
  | PyVal.dict fs => Except.ok fs.length
  | _ => Except.error "TypeError: object has no len"

/-- Format of a rational in `pyStr`: integers exactly as Python prints
them; non-integers keep fraction notation (no scraper statement below
formats a non-integer number). -/
def ratStr (q : Rat) : String :=
  if q.den = 1 then toString q.num
  else toString q.num ++ "/" ++ toString q.den

/-- Python `str(v)` as used inside the scrapers f-strings.  Container
reprs are never formatted by any scraper on the paths stated below. -/
def pyStr : PyVal → String
  | PyVal.none => "None"
  | PyVal.bool true => "True"
  | PyVal.bool false => "False"
  | PyVal.num q => ratStr q
  | PyVal.str s => s
  | PyVal.list _ => "<list>"
  | PyVal.dict _ => "<dict>"

/-- Python `v.strip()`: only strings have it. -/
def pyStripE : PyVal → Except String PyVal
  | PyVal.str s => Except.ok (PyVal.str (pyStrip s))
  | _ => Except.error "AttributeError: no attribute strip"

/-- Accumulator pass for whitespace splitting (Python `s.split()`):
emit the maximal non-whitespace runs. -/
def wsGroupsAux : List Char → List Char → List String
  | [], acc => if acc.isEmpty then [] else [String.mk acc.reverse]
  | c :: cs, acc =>
    if c.isWhitespace then
      if acc.isEmpty then wsGroupsAux cs []
      else String.mk acc.reverse :: wsGroupsAux cs []
    else wsGroupsAux cs (c :: acc)

/-- Python `s.split()` with no separator: split on whitespace runs,
dropping empty pieces. -/
def pySplitWs (s : String) : List String := wsGroupsAux s.data []

/-- Python `v.split()` on a value: only strings have it. -/
def pySplitWsE : PyVal → Except String (List String)
  | PyVal.str s => Except.ok (pySplitWs s)
  | _ => Except.error "AttributeError: no attribute split"

/-- Fuelled splitter behind Python `s.split(sep)`: leftmost,
non-overlapping matches, keeping empty pieces.  The fuel is the length
of the haystack, which every call consumes at most one of. -/
def splitOnFuel (sep : List Char) : Nat → List Char → List Char → List String
  | 0, rest, acc => [String.mk (acc.reverse ++ rest)]
  | _ + 1, [], acc => [String.mk acc.reverse]
  | fuel + 1, c :: cs, acc =>
    if listStarts (c :: cs) sep then
      String.mk acc.reverse :: splitOnFuel sep fuel (List.drop (sep.length - 1) cs) []
    else splitOnFuel sep fuel cs (c :: acc)

/-- Python `s.split(sep)` for a non-empty separator (every caller passes
one; Python raises on an empty separator). -/
def pySplitOnStr (s sep : String) : List String :=
  if sep.data.isEmpty then [s]
  else splitOnFuel sep.data s.data.length s.data []

/-- Python `s.split(sep, 1)`: at most one split, at the first occurrence. -/
def pySplitOn1 (s sep : String) : List String :=
  match pySplitOnStr s sep with
  | [] => [s]
  | [x] => [x]
  | x :: rest => [x, String.intercalate sep rest]

/-- Fuelled rewriter behind Python `s.replace(pat, rep)`: leftmost,
non-overlapping matches. -/
def replaceFuel (pat rep : List Char) : Nat → List Char → List Char
  | 0, rest => rest
  | _ + 1, [] => []
  | fuel + 1, c :: cs =>
    if listStarts (c :: cs) pat then
      rep ++ replaceFuel pat rep fuel (List.drop (pat.length - 1) cs)
    else c :: replaceFuel pat rep fuel cs

/-- Python `s.replace(pat, rep)` for a non-empty pattern (every caller
passes one). -/
def pyReplaceStr (s pat rep : String) : String :=
  if pat.data.isEmpty then s
  else String.mk (replaceFuel pat.data rep.data s.data.length s.data)

/-- Decimal value of a digit run. -/
def digitsVal (ds : List Char) : Nat :=
  ds.foldl (fun n c => 10 * n + (c.toNat - 48)) 0

/-- Python `float(s)` on plain decimal literals: optional sign, digits
with an optional fractional part, surrounding whitespace allowed.
Exponents, inf and nan (which Python would accept) are not used by any
payload stated below and are not modelled. -/
def pyFloatStr (s : String) : Except String Rat :=
  let chars := (pyStrip s).data
  let signed : Int × List Char :=
    match chars with
    | c :: cs =>
      if c = '+' then (1, cs) else if c = '-' then (-1, cs) else (1, chars)
    | [] => (1, chars)
  let sign := signed.1
  let rest := signed.2
  let intPart := rest.takeWhile (fun c => c.isDigit)
  let afterInt := rest.drop intPart.length
  match afterInt with
  | [] =>
    if intPart.isEmpty then Except.error "ValueError: could not convert string to float"
    else Except.ok (mkRat (sign * (digitsVal intPart : Int)) 1)
  | c :: cs =>
    if c = '.' then
      let fracPart := cs.takeWhile (fun ch => ch.isDigit)
      let afterFrac := cs.drop fracPart.length
      if !afterFrac.isEmpty then Except.error "ValueError: could not convert string to float"
      else if intPart.isEmpty && fracPart.isEmpty then
        Except.error "ValueError: could not convert string to float"
      else
        Except.ok (mkRat
          (sign * ((digitsVal intPart * 10 ^ fracPart.length + digitsVal fracPart : Nat) : Int))
          (10 ^ fracPart.length))
    else Except.error "ValueError: could not convert string to float"

/-- Python `int(s)` on strings: optional sign and digits, whitespace
trimmed. -/
def pyIntDigits (ds : List Char) : Except String Int :=
  if ds.isEmpty || !ds.all (fun c => c.isDigit) then
    Except.error "ValueError: invalid literal for int"
  else Except.ok (digitsVal ds)

def pyIntStr (s : String) : Except String Int :=
  match (pyStrip s).data with
  | [] => Except.error "ValueError: invalid literal for int"
  | c :: cs =>
    if c = '+' then pyIntDigits cs
    else if c = '-' then
      match pyIntDigits cs with
      | Except.ok n => Except.ok (-n)
      | Except.error e => Except.error e
    else pyIntDigits (c :: cs)

/-- Python `int(v)`: strings parse, numbers truncate toward zero, bools
coerce; None and containers raise TypeError. -/
def pyToInt : PyVal → Except String Int
  | PyVal.str s => pyIntStr s
  | PyVal.num q => Except.ok (if q < 0 then q.ceil else q.floor)
  | PyVal.bool b => Except.ok (if b then 1 else 0)
  | _ => Except.error "TypeError: int() argument"

/-- Python `s.zfill(width)`. -/
def pyZfill (s : String) (width : Nat) : String :=
  if width ≤ s.length then s
  else
    match s.data with
    | c :: cs =>
      if c = '+' || c = '-' then
        String.singleton c ++ String.mk (List.replicate (width - s.length) '0') ++ String.mk cs
      else String.mk (List.replicate (width - s.length) '0') ++ s
    | [] => String.mk (List.replicate width '0')

/-- Zero padding of a natural to a given total width. -/
def natPad (n w : Nat) : String :=
  let s := toString n
  if w ≤ s.length then s else String.mk (List.replicate (w - s.length) '0') ++ s

/-- Python format spec `05d` applied to a value: only integral values
format; strings and floats raise ValueError. -/
def pyFormat05d (v : PyVal) : Except String String :=
  match v with
  | PyVal.num q =>
    if q.den = 1 then
      Except.ok (if q.num < 0 then "-" ++ natPad q.num.natAbs 4 else natPad q.num.natAbs 5)
    else Except.error "ValueError: unknown format code d for float"
  | PyVal.bool b => Except.ok (natPad (if b then 1 else 0) 5)
  | _ => Except.error "ValueError: unknown format code d"

/-- Python `sep.join(items)`: every item must be a string. -/
def pyJoinE (sep : String) : List PyVal → Except String String
  | [] => Except.ok ""
  | [PyVal.str s] => Except.ok s
  | PyVal.str s :: rest =>
    match pyJoinE sep rest with
    | Except.ok t => Except.ok (s ++ sep ++ t)
    | Except.error e => Except.error e
  | _ => Except.error "TypeError: sequence item is not str"

/-- Python `v.replace(a, b)`: only strings have it. -/
def pyReplaceE (v : PyVal) (a b : String) : Except String PyVal :=
  match v with
  | PyVal.str s => Except.ok (PyVal.str (pyReplaceStr s a b))
  | _ => Except.error "AttributeError: no attribute replace"

/-- A single quote character, used when rebuilding Python messages. -/
def squote : String := String.singleton (Char.ofNat 39)

/-- Effectful map over a list, aborting at the first error — the shape of
every scraper loop that appends one record per upstream item. -/
def mapME (g : α → Except String β) : List α → Except String (List β)
  | [] => Except.ok []
  | a :: rest =>
    match g a with
    | Except.error e => Except.error e
    | Except.ok b =>
      match mapME g rest with
      | Except.error e => Except.error e
      | Except.ok bs => Except.ok (b :: bs)

/-- The normalized record shape from jedeschule_lite/schema.py.  All
fields default to Python None; field values keep the dynamic Python
typing of the dataclass. -/
structure School where
  id : PyVal := PyVal.none
  name : PyVal := PyVal.none
  address : PyVal := PyVal.none
  address2 : PyVal := PyVal.none
  zip : PyVal := PyVal.none
  city : PyVal := PyVal.none
  website : PyVal := PyVal.none
  email : PyVal := PyVal.none
  school_type : PyVal := PyVal.none
  legal_status : PyVal := PyVal.none
  provider : PyVal := PyVal.none
  fax : PyVal := PyVal.none
  phone : PyVal := PyVal.none
  latitude : PyVal := PyVal.none
  longitude : PyVal := PyVal.none
  director : PyVal := PyVal.none

/- ---------------------------------------------------------------------
Transport layer (jedeschule_lite/utils.py).  The oracle maps the attempt
index to that attempt's outcome (requests.get + raise_for_status).  The
model returns the final outcome together with the list of back-off waits
performed via time.sleep. -/

def MAX_RETRIES : Nat := 3

/-- Body of `for attempt in range(MAX_RETRIES)` in utils.fetch: on
failure at attempt `a`, sleep `2 ^ (a + 1)` and continue unless this was
the final attempt, in which case the error re-raises.  Falling off the
end of the loop cannot happen for MAX_RETRIES ≥ 1 (the last failing
attempt re-raises) and is marked as such. -/
def fetchLoop (transport : Nat → Except String α) :
    List Nat → List Nat → Except String α × List Nat
  | [], waits => (Except.error "unreachable: fetch loop exhausted", waits)
  | attempt :: rest, waits =>
    match transport attempt with
    | Except.ok r => (Except.ok r, waits)
    | Except.error e =>
      if attempt < MAX_RETRIES - 1 then
        fetchLoop transport rest (waits ++ [2 ^ (attempt + 1)])
      else (Except.error e, waits)

/-- utils.fetch with the retry policy made explicit.  utils.post has the
identical body and is covered by the same model. -/
def fetch (transport : Nat → Except String α) : Except String α × List Nat :=
  fetchLoop transport (List.range MAX_RETRIES) []

/- ---------------------------------------------------------------------
Shared helpers from jedeschule_lite/utils.py. -/

/-- Python `l[i]` for a non-negative index on a sized value. -/
def pyIndexNth (v : PyVal) (i : Nat) : Except String PyVal :=
  match v with
  | PyVal.list xs =>
    match xs.get? i with
    | some x => Except.ok x
    | Option.none => Except.error "IndexError: list index out of range"
  | PyVal.str s =>
    match s.data.get? i with
    | some c => Except.ok (PyVal.str (String.singleton c))
    | Option.none => Except.error "IndexError: string index out of range"
  | _ => Except.error "TypeError: object is not subscriptable"

/-- utils.safe_strip: strip whitespace, return None if empty; raises on
truthy non-strings (Python would fail on `.strip()`). -/
def safe_strip : PyVal → Except String PyVal
  | PyVal.none => Except.ok PyVal.none
  | PyVal.str s =>
    if s.data.isEmpty then Except.ok PyVal.none
    else if (pyStrip s).data.isEmpty then Except.ok PyVal.none
    else Except.ok (PyVal.str (pyStrip s))
  | v =>
    if pyTruthy v then Except.error "AttributeError: no attribute strip"
    else Except.ok PyVal.none

/-- Helper for the two assignments props lon and props lat from the
first two coordinates. -/
def pySetItemTwo (props c0 c1 : PyVal) : Except String PyVal :=
  match props with
  | PyVal.dict fs =>
    Except.ok (PyVal.dict (dictSetFields (dictSetFields fs "lon" c0) "lat" c1))
  | _ => Except.error "TypeError: object does not support item assignment"

/-- Per-feature step of utils.parse_geojson_features: copy lon/lat from
the geometry coordinates onto the properties dict when at least two
coordinates are present. -/
def parseGeojsonFeature (feature : PyVal) : Except String PyVal :=
  match pyGetDE feature "properties" (PyVal.dict []) with
  | Except.error e => Except.error e
  | Except.ok props =>
    match pyGetDE feature "geometry" (PyVal.dict []) with
    | Except.error e => Except.error e
    | Except.ok geometry =>
      match pyGetDE geometry "coordinates" (PyVal.list []) with
      | Except.error e => Except.error e
      | Except.ok coords =>
        match pyLen coords with
        | Except.error e => Except.error e
        | Except.ok n =>
          if 2 ≤ n then
            match pyIndexNth coords 0 with
            | Except.error e => Except.error e
            | Except.ok c0 =>
              match pyIndexNth coords 1 with
              | Except.error e => Except.error e
              | Except.ok c1 => pySetItemTwo props c0 c1
          else Except.ok props

/-- utils.parse_geojson_features. -/
def parse_geojson_features (data : PyVal) : Except String (List PyVal) :=
  match pyGetDE data "features" (PyVal.list []) with
  | Except.error e => Except.error e
  | Except.ok features =>
    match pyIter features with
    | Except.error e => Except.error e
    | Except.ok fs => mapME parseGeojsonFeature fs

/-- Last element of a split result (Python negative index -1 on a
split list, which is never empty). -/
def pyLastStr (l : List String) : String := (l.getLast?).getD ""

/-- First binding in a list of string pairs. -/
def strAssocFind : List (String × String) → String → Option String
  | [], _ => Option.none
  | (k, v) :: rest, key => if k = key then some v else strAssocFind rest key

/-- Overwriting insert on a string-keyed dict of strings (used for the
runner error dict and the NRW key tables). -/
def dictInsertStr : List (String × String) → String → String → List (String × String)
  | [], k, v => [(k, v)]
  | (k0, v0) :: rest, k, v =>
    if k0 = k then (k0, v) :: rest else (k0, v0) :: dictInsertStr rest k v

/- ---------------------------------------------------------------------
GeoJSON scrapers (jedeschule_lite/scrapers/geojson.py).  Each scraper is
parametrised by the outcome of its fetch(url).json() call(s). -/

/-- Record construction of scrape_berlin for one parsed feature, once
the feature properties are known to be a dict (every .get call in the
source would raise the same AttributeError otherwise). -/
def mkBerlinSchool (f : PyVal) : School :=
  { name := pyGetD f "schulname" PyVal.none,
    id := PyVal.str ("BE-" ++ pyStr (pyGetD f "bsn" PyVal.none)),
    address := PyVal.str (pyStrip
      (pyStr (pyGetD f "strasse" (PyVal.str "")) ++ " " ++
       pyStr (pyGetD f "hausnr" (PyVal.str "")))),
    zip := pyGetD f "plz" PyVal.none,
    city := PyVal.str "Berlin",
    website := pyGetD f "internet" PyVal.none,
    email := pyGetD f "email" PyVal.none,
    school_type := pyGetD f "schulart" PyVal.none,
    legal_status := pyGetD f "traeger" PyVal.none,
    fax := pyGetD f "fax" PyVal.none,
    phone := pyGetD f "telefon" PyVal.none,
    latitude := pyGetD f "lat" PyVal.none,
    longitude := pyGetD f "lon" PyVal.none }

def berlinSchool (f : PyVal) : Except String School :=
  match f with
  | PyVal.dict _ => Except.ok (mkBerlinSchool f)
  | _ => Except.error "AttributeError: no attribute get"

/-- scrapers/geojson.scrape_berlin on the parsed payload of its single
fetch. -/
def scrape_berlin (fetched : Except String PyVal) : Except String (List School) :=
  match fetched with
  | Except.error e => Except.error e
  | Except.ok data =>
    match parse_geojson_features data with
    | Except.error e => Except.error e
    | Except.ok features => mapME berlinSchool features

def mkBrandenburgSchool (f : PyVal) : School :=
  { name := pyGetD f "schulname" PyVal.none,
    id := PyVal.str ("BB-" ++ pyStr (pyGetD f "schul_nr" PyVal.none)),
    address := pyGetD f "strasse_hausnr" PyVal.none,
    zip := pyGetD f "plz" PyVal.none,
    city := pyGetD f "ort" PyVal.none,
    website := pyGetD f "homepage" PyVal.none,
    email := pyGetD f "dienst_email" PyVal.none,
    school_type := pyGetD f "schulform" PyVal.none,
    fax := pyGetD f "faxnummer" PyVal.none,
    phone := pyGetD f "telefonnummer" PyVal.none,
    provider := pyGetD f "schulamtname" PyVal.none,
    longitude := pyGetD f "lon" PyVal.none,
    latitude := pyGetD f "lat" PyVal.none }

def brandenburgSchool (f : PyVal) : Except String School :=
  match f with
  | PyVal.dict _ => Except.ok (mkBrandenburgSchool f)
  | _ => Except.error "AttributeError: no attribute get"

/-- scrapers/geojson.scrape_brandenburg. -/
def scrape_brandenburg (fetched : Except String PyVal) : Except String (List School) :=
  match fetched with
  | Except.error e => Except.error e
  | Except.ok data =>
    match parse_geojson_features data with
    | Except.error e => Except.error e
    | Except.ok features => mapME brandenburgSchool features

def hamburg_urls : List String :=
  ["https://api.hamburg.de/datasets/v1/schulen/collections/staatliche_schulen/items?limit=1000",
   "https://api.hamburg.de/datasets/v1/schulen/collections/nicht_staatliche_schulen/items?limit=1000"]

/-- Record construction of scrape_hamburg for one feature: the
adresse_ort field is split into zip and city. -/
def hamburgSchool (f : PyVal) : Except String School :=
  match f with
  | PyVal.dict _ =>
    match pySplitWsE (pyOr (pyGetD f "adresse_ort" PyVal.none) (PyVal.str "")) with
    | Except.error e => Except.error e
    | Except.ok city_parts =>
      let zip_code := match city_parts with
        | [] => PyVal.none
        | z :: _ => PyVal.str z
      let city :=
        if 1 < city_parts.length then
          PyVal.str (String.intercalate " " (city_parts.drop 1))
        else PyVal.none
      Except.ok
        { name := pyGetD f "schulname" PyVal.none,
          id := PyVal.str ("HH-" ++ pyStr (pyGetD f "schul_id" PyVal.none)),
          address := pyGetD f "adresse_strasse_hausnr" PyVal.none,
          zip := zip_code,
          city := city,
          website := pyGetD f "schul_homepage" PyVal.none,
          email := pyGetD f "schul_email" PyVal.none,
          school_type := pyGetD f "schulform" PyVal.none,
          fax := pyGetD f "fax" PyVal.none,
          phone := pyGetD f "schul_telefonnr" PyVal.none,
          director := pyGetD f "name_schulleiter" PyVal.none,
          latitude := pyGetD f "lat" PyVal.none,
          longitude := pyGetD f "lon" PyVal.none }
  | _ => Except.error "AttributeError: no attribute get"

def scrape_hamburg_loop (fetchj : String → Except String PyVal) :
    List String → Except String (List School)
  | [] => Except.ok []
  | url :: rest =>
    match fetchj url with
    | Except.error e => Except.error e
    | Except.ok data =>
      match parse_geojson_features data with
      | Except.error e => Except.error e
      | Except.ok feats =>
        match mapME hamburgSchool feats with
        | Except.error e => Except.error e
        | Except.ok schools =>
          match scrape_hamburg_loop fetchj rest with
          | Except.error e => Except.error e
          | Except.ok more => Except.ok (schools ++ more)

/-- scrapers/geojson.scrape_hamburg over the fetch oracle for its two
endpoint URLs. -/
def scrape_hamburg (fetchj : String → Except String PyVal) : Except String (List School) :=
  scrape_hamburg_loop fetchj hamburg_urls

def saarlandSchool (f : PyVal) : Except String School :=
  match f with
  | PyVal.dict _ =>
    match pyStripE (pyOr (pyGetD f "Straße" PyVal.none) (PyVal.str "")) with
    | Except.error e => Except.error e
    | Except.ok addr =>
      Except.ok
        { name := pyGetD f "Bezeichnung" PyVal.none,
          id := PyVal.str ("SL-" ++ pyStr (pyGetD f "OBJECTID" PyVal.none)),
          address := addr,
          zip := pyGetD f "PLZ" PyVal.none,
          city := pyGetD f "Ort" PyVal.none,
          school_type := pyGetD f "Schulform" PyVal.none,
          phone := pyGetD f "Telefon" PyVal.none,
          fax := pyGetD f "Fax" PyVal.none,
          website := pyGetD f "Homepage" PyVal.none,
          latitude := pyGetD f "lat" PyVal.none,
          longitude := pyGetD f "lon" PyVal.none }
  | _ => Except.error "AttributeError: no attribute get"

/-- scrapers/geojson.scrape_saarland. -/
def scrape_saarland (fetched : Except String PyVal) : Except String (List School) :=
  match fetched with
  | Except.error e => Except.error e
  | Except.ok data =>
    match parse_geojson_features data with
    | Except.error e => Except.error e
    | Except.ok features => mapME saarlandSchool features

/- ---------------------------------------------------------------------
REST/JSON API scrapers (jedeschule_lite/scrapers/api.py). -/

/-- Attempted match of the DISCH regex right after an at-sign: exactly
eight digits followed by the literal suffix .schule.bwl.de compared
case-insensitively. -/
def dischTry (cs : List Char) : Option String :=
  let ds := cs.take 8
  let rest := cs.drop 8
  if ds.length = 8 && ds.all Char.isDigit &&
      listStarts (rest.map pyLowerChar) ".schule.bwl.de".data then
    some (String.mk ds)
  else Option.none

/-- Scan of the regex search over the whole e-mail address: the pattern
starts with an at-sign, so only those positions can match. -/
def dischScan : List Char → Option String
  | [] => Option.none
  | c :: cs =>
    if c = Char.ofNat 64 then
      match dischTry cs with
      | some d => some d
      | Option.none => dischScan cs
    else dischScan cs

/-- api._extract_disch: falsy input gives None, otherwise the stripped
string is searched; the result is the eight-digit group or None. -/
def extract_disch (email : PyVal) : Except String PyVal :=
  if !pyTruthy email then Except.ok PyVal.none
  else
    match email with
    | PyVal.str s =>
      match dischScan (pyStrip s).data with
      | some d => Except.ok (PyVal.str d)
      | Option.none => Except.ok PyVal.none
    | _ => Except.error "AttributeError: no attribute strip"

/-- Python conditional `x[i] if x and len(x) >= 2 else None` used for
the BW coordinates. -/
def bwCoord (coords : PyVal) (i : Nat) : Except String PyVal :=
  if pyTruthy coords then
    match pyLen coords with
    | Except.error e => Except.error e
    | Except.ok n =>
      if 2 ≤ n then pyIndexNth coords i else Except.ok PyVal.none
  else Except.ok PyVal.none

/-- Street extraction of scrape_baden_wuerttemberg (the isinstance-dict
guarded branch of the source). -/
def bwStreet (thoroughfare : PyVal) : Except String PyVal :=
  match thoroughfare with
  | PyVal.dict _ =>
    match pyGetDE (pyGetD thoroughfare "GeographicalName" (PyVal.dict [])) "spelling" (PyVal.dict []) with
    | Except.error e => Except.error e
    | Except.ok street_obj =>
      match street_obj with
      | PyVal.dict _ =>
        match pyStripE (pyGetD street_obj "text" (PyVal.str "")) with
        | Except.error e => Except.error e
        | Except.ok s => Except.ok s
      | _ => Except.ok (PyVal.str "")
  | _ => Except.ok (PyVal.str "")

/-- City extraction of scrape_baden_wuerttemberg (isinstance-dict
guarded). -/
def bwCity (city_spelling : PyVal) : Except String PyVal :=
  match city_spelling with
  | PyVal.dict _ =>
    match pyStripE (pyGetD city_spelling "text" (PyVal.str "")) with
    | Except.error e => Except.error e
    | Except.ok s => Except.ok s
  | _ => Except.ok (PyVal.str "")

/-- The identifier of a BW record: the DISCH number when found, the
feature UUID otherwise. -/
def bwSchoolId (disch uuid : PyVal) : String :=
  if pyTruthy disch then "BW-" ++ pyStr disch
  else "BW-UUID-" ++ pyStr uuid

/-- Record construction of scrape_baden_wuerttemberg for one feature.
The source walks a deeply nested payload with chained .get calls and
isinstance guards; each step that Python could fail on is explicit. -/
def bwSchool (feature : PyVal) : Except String School :=
  match pyGetDE feature "id" PyVal.none with
  | Except.error e => Except.error e
  | Except.ok uuid =>
  match pyIndexKey feature "properties" with
  | Except.error e => Except.error e
  | Except.ok props =>
  match pyGetDE props "serviceLocation" (PyVal.dict []) with
  | Except.error e => Except.error e
  | Except.ok service_loc =>
  match pyGetDE service_loc "serviceLocationByGeometry" (PyVal.dict []) with
  | Except.error e => Except.error e
  | Except.ok geom =>
  match pyGetDE geom "coordinates" PyVal.none with
  | Except.error e => Except.error e
  | Except.ok coords =>
  match bwCoord coords 0 with
  | Except.error e => Except.error e
  | Except.ok lat =>
  match bwCoord coords 1 with
  | Except.error e => Except.error e
  | Except.ok lon =>
  match pyGetDE props "pointOfContact" (PyVal.dict []) with
  | Except.error e => Except.error e
  | Except.ok poc =>
  match pyGetDE poc "Contact" (PyVal.dict []) with
  | Except.error e => Except.error e
  | Except.ok contact =>
  match pyGetDE contact "address" (PyVal.dict []) with
  | Except.error e => Except.error e
  | Except.ok addr0 =>
  match pyGetDE addr0 "AddressRepresentation" (PyVal.dict []) with
  | Except.error e => Except.error e
  | Except.ok addr =>
  match pyGetDE addr "locatorName" (PyVal.dict []) with
  | Except.error e => Except.error e
  | Except.ok locator_name =>
  match pyGetDE locator_name "spelling" (PyVal.dict []) with
  | Except.error e => Except.error e
  | Except.ok name_spelling =>
  let name := match name_spelling with
    | PyVal.dict _ => pyGetD name_spelling "text" (PyVal.str "")
    | _ => PyVal.str ""
  match pyGetDE addr "thoroughfare" (PyVal.dict []) with
  | Except.error e => Except.error e
  | Except.ok thoroughfare =>
  match bwStreet thoroughfare with
  | Except.error e => Except.error e
  | Except.ok street =>
  match pyStripE (pyGetD addr "locatorDesignator" (PyVal.str "")) with
  | Except.error e => Except.error e
  | Except.ok locator =>
  let address :=
    if pyTruthy street then PyVal.str (pyStrip (pyStr street ++ " " ++ pyStr locator))
    else PyVal.none
  match pyStripE (pyGetD addr "postCode" (PyVal.str "")) with
  | Except.error e => Except.error e
  | Except.ok zip_code =>
  match pyGetDE addr "postName" (PyVal.dict []) with
  | Except.error e => Except.error e
  | Except.ok post_name =>
  match pyGetDE post_name "GeographicalName" (PyVal.dict []) with
  | Except.error e => Except.error e
  | Except.ok city_obj =>
  match pyGetDE city_obj "spelling" (PyVal.dict []) with
  | Except.error e => Except.error e
  | Except.ok city_spelling =>
  match bwCity city_spelling with
  | Except.error e => Except.error e
  | Except.ok city =>
  let email := pyGetD contact "electronicMailAddress" (PyVal.str "")
  let phone := pyGetD contact "telephoneVoice" (PyVal.str "")
  let fax := pyGetD contact "telephoneFacsimile" (PyVal.str "")
  let website := pyGetD contact "website" (PyVal.str "")
  match extract_disch email with
  | Except.error e => Except.error e
  | Except.ok disch =>
  match pyGetDE props "serviceType" (PyVal.dict []) with
  | Except.error e => Except.error e
  | Except.ok service_type0 =>
  match pyGetDE service_type0 "@href" (PyVal.str "") with
  | Except.error e => Except.error e
  | Except.ok service_type =>
    Except.ok
      { id := PyVal.str (bwSchoolId disch uuid),
        name := name,
        address := address,
        zip := zip_code,
        city := city,
        email := email,
        phone := phone,
        fax := fax,
        website := if pyTruthy website then website else PyVal.none,
        school_type := service_type,
        latitude := lat,
        longitude := lon }

/-- scrapers/api.scrape_baden_wuerttemberg on the parsed payload of its
fetch. -/
def scrape_baden_wuerttemberg (fetched : Except String PyVal) : Except String (List School) :=
  match fetched with
  | Except.error e => Except.error e
  | Except.ok data =>
    match pyGetDE data "features" (PyVal.list []) with
    | Except.error e => Except.error e
    | Except.ok features =>
      match pyIter features with
      | Except.error e => Except.error e
      | Except.ok fs => mapME bwSchool fs

/-- Overwriting insert for the int-keyed Sachsen school-type dict. -/
def intDictInsert : List (Int × PyVal) → Int → PyVal → List (Int × PyVal)
  | [], k, v => [(k, v)]
  | (k0, v0) :: rest, k, v =>
    if k0 = k then (k0, v) :: rest else (k0, v0) :: intDictInsert rest k v

def intDictFind : List (Int × PyVal) → Int → Option PyVal
  | [], _ => Option.none
  | (k0, v0) :: rest, k => if k0 = k then some v0 else intDictFind rest k

/-- Dict-comprehension loop of api._load_sachsen_school_types. -/
def loadTypesLoop : List PyVal → List (Int × PyVal) → Except String (List (Int × PyVal))
  | [], acc => Except.ok acc
  | entry :: rest, acc =>
    match pyIndexKey entry "key" with
    | Except.error e => Except.error e
    | Except.ok keyv =>
      match pyToInt keyv with
      | Except.error e => Except.error e
      | Except.ok k =>
        match pyIndexKey entry "label" with
        | Except.error e => Except.error e
        | Except.ok label => loadTypesLoop rest (intDictInsert acc k label)

/-- api._load_sachsen_school_types on the outcome of its reference-table
fetch. -/
def load_sachsen_school_types (typesFetched : Except String PyVal) :
    Except String (List (Int × PyVal)) :=
  match typesFetched with
  | Except.error e => Except.error e
  | Except.ok data =>
    match pyIter data with
    | Except.error e => Except.error e
    | Except.ok entries => loadTypesLoop entries []

/-- Python dict lookup school_types.get(k) where the dict is int-keyed:
numeric values equal to an integer find that key, everything else gives
None. -/
def sachsenTypeLookup (types : List (Int × PyVal)) (key : PyVal) : PyVal :=
  match key with
  | PyVal.num q => if q.den = 1 then (intDictFind types q.num).getD PyVal.none else PyVal.none
  | PyVal.bool b => (intDictFind types (if b then 1 else 0)).getD PyVal.none
  | _ => PyVal.none

/-- Conditional school-type resolution of scrape_sachsen: when the
type_keys value is truthy, the first entry is looked up in the
reference table (an unresolvable key leaves None); otherwise the field
stays unset. -/
def sachsenSchoolType (types : List (Int × PyVal)) (type_keys : PyVal) :
    Except String PyVal :=
  if pyTruthy type_keys then
    match pyIndexNth type_keys 0 with
    | Except.error e => Except.error e
    | Except.ok k => Except.ok (sachsenTypeLookup types k)
  else Except.ok PyVal.none

/-- Record construction of scrape_sachsen for one school item. -/
def sachsenSchool (types : List (Int × PyVal)) (item : PyVal) : Except String School :=
  match pyGetDE item "buildings" PyVal.none with
  | Except.error e => Except.error e
  | Except.ok buildings_raw =>
  match pyIndexNth (pyOr buildings_raw (PyVal.list [PyVal.none])) 0 with
  | Except.error e => Except.error e
  | Except.ok building =>
  match pyGetDE item "name" PyVal.none with
  | Except.error e => Except.error e
  | Except.ok name =>
  match pyGetDE item "id" PyVal.none with
  | Except.error e => Except.error e
  | Except.ok idv =>
  let base : School := { name := name, id := PyVal.str ("SN-" ++ pyStr idv) }
  if pyTruthy building then
    match building with
    | PyVal.dict _ =>
      match pyJoinE "" [pyOr (pyGetD building "fax_code" PyVal.none) (PyVal.str ""),
                        pyOr (pyGetD building "fax_number" PyVal.none) (PyVal.str "")] with
      | Except.error e => Except.error e
      | Except.ok faxS =>
      match pyJoinE "" [pyOr (pyGetD building "phone_code_1" PyVal.none) (PyVal.str ""),
                        pyOr (pyGetD building "phone_number_1" PyVal.none) (PyVal.str "")] with
      | Except.error e => Except.error e
      | Except.ok phoneS =>
      let type_keys := pyGetD building "school_type_keys" (PyVal.list [PyVal.none])
      match sachsenSchoolType types type_keys with
      | Except.error e => Except.error e
      | Except.ok school_type =>
        Except.ok
          { base with
            address := pyGetD building "street" PyVal.none,
            zip := pyGetD building "postcode" PyVal.none,
            city := pyGetD building "community" PyVal.none,
            email := pyGetD building "mail" PyVal.none,
            website := pyGetD building "homepage" PyVal.none,
            fax := PyVal.str faxS,
            phone := PyVal.str phoneS,
            latitude := pyGetD building "latitude" PyVal.none,
            longitude := pyGetD building "longitude" PyVal.none,
            school_type := school_type }
    | _ => Except.error "AttributeError: no attribute get"
  else Except.ok base

/-- scrapers/api.scrape_sachsen: the school-type reference table is
fetched first, then the school list; a failure of either fetch
propagates. -/
def scrape_sachsen (typesFetched schoolsFetched : Except String PyVal) :
    Except String (List School) :=
  match load_sachsen_school_types typesFetched with
  | Except.error e => Except.error e
  | Except.ok types =>
    match schoolsFetched with
    | Except.error e => Except.error e
    | Except.ok raw =>
      match pyIter raw with
      | Except.error e => Except.error e
      | Except.ok items => mapME (sachsenSchool types) items

/-- Numeric value fed to the pyproj transformer (pyproj raises on
non-numeric input). -/
def asNum : PyVal → Except String Rat
  | PyVal.num q => Except.ok q
  | PyVal.bool b => Except.ok (if b then 1 else 0)
  | _ => Except.error "ProjError: invalid coordinate"

/-- Coordinate step of scrape_sachsen_anhalt: both outputs are assigned
from one transformer call when geometry with x and y is present,
otherwise both stay None. -/
def stCoords (transformer : Rat → Rat → Rat × Rat) (geom : PyVal) :
    Except String (PyVal × PyVal) :=
  if pyTruthy geom && pyHasKey geom "x" && pyHasKey geom "y" then
    match pyIndexKey geom "x" with
    | Except.error e => Except.error e
    | Except.ok xv =>
      match pyIndexKey geom "y" with
      | Except.error e => Except.error e
      | Except.ok yv =>
        match asNum xv with
        | Except.error e => Except.error e
        | Except.ok x =>
          match asNum yv with
          | Except.error e => Except.error e
          | Except.ok y =>
            let p := transformer x y
            Except.ok (PyVal.num p.1, PyVal.num p.2)
  else Except.ok (PyVal.none, PyVal.none)

/-- Record construction of scrape_sachsen_anhalt for one feature; the
transformer oracle models pyproj EPSG:25832 to WGS84 with always_xy, so
it returns the pair longitude, latitude. -/
def stSchool (transformer : Rat → Rat → Rat × Rat) (feature : PyVal) :
    Except String School :=
  match pyIndexKey feature "attributes" with
  | Except.error e => Except.error e
  | Except.ok attrs =>
  match pyGetDE feature "geometry" (PyVal.dict []) with
  | Except.error e => Except.error e
  | Except.ok geom =>
  match stCoords transformer geom with
  | Except.error e => Except.error e
  | Except.ok coords =>
  match attrs with
  | PyVal.dict _ =>
    match pyFormat05d (pyGetD attrs "OBJECTID" (PyVal.num 0)) with
    | Except.error e => Except.error e
    | Except.ok sid =>
      Except.ok
        { name := pyGetD attrs "Name" PyVal.none,
          id := PyVal.str ("ST-ARC" ++ sid),
          city := pyGetD attrs "Ort" PyVal.none,
          school_type := pyGetD attrs "Schulform" PyVal.none,
          legal_status := pyGetD attrs "Kategorie" PyVal.none,
          provider := pyGetD attrs "Traeg_Anw" PyVal.none,
          latitude := coords.2,
          longitude := coords.1 }
  | _ => Except.error "AttributeError: no attribute get"

/-- scrapers/api.scrape_sachsen_anhalt. -/
def scrape_sachsen_anhalt (transformer : Rat → Rat → Rat × Rat)
    (fetched : Except String PyVal) : Except String (List School) :=
  match fetched with
  | Except.error e => Except.error e
  | Except.ok data =>
    match pyGetDE data "features" (PyVal.list []) with
    | Except.error e => Except.error e
    | Except.ok features =>
      match pyIter features with
      | Except.error e => Except.error e
      | Except.ok fs => mapME (stSchool transformer) fs

/- ---------------------------------------------------------------------
WFS XML scrapers (jedeschule_lite/scrapers/wfs_xml.py).  Each scraper is
parametrised by the outcome of fetch(url).text piped through
xmltodict.parse, i.e. the parsed document as a PyVal. -/

/-- Python `members if isinstance(members, list) else [members]`. -/
def asPyList (v : PyVal) : List PyVal :=
  match v with
  | PyVal.list xs => xs
  | _ => [v]

/-- Python `next(iter(member.values()), default {})`. -/
def pyFirstValue : PyVal → Except String PyVal
  | PyVal.dict [] => Except.ok (PyVal.dict [])
  | PyVal.dict ((_, v) :: _) => Except.ok v
  | _ => Except.error "AttributeError: no attribute values"

/-- wfs_xml._parse_wfs_members on the parsed document. -/
def parse_wfs_members (data : PyVal) : Except String (List PyVal) :=
  match pyGetDE data "wfs:FeatureCollection" (PyVal.dict []) with
  | Except.error e => Except.error e
  | Except.ok fc =>
    match pyGetDE fc "wfs:member" (PyVal.list []) with
    | Except.error e => Except.error e
    | Except.ok members => Except.ok (asPyList members)

/-- The per-field loop of scrape_bayern: the geometry key unpacks
gml:pos as lon lat and float-converts both (lat first, as in the
source); keys starting with an at-sign are dropped; every other key is
copied with its namespace stripped. -/
def bayernItemLoop : List (String × PyVal) → PyVal → Except String PyVal
  | [], item => Except.ok item
  | (key, value) :: rest, item =>
    if key = "schul:geometry" then
      match pyGetDE value "gml:Point" (PyVal.dict []) with
      | Except.error e => Except.error e
      | Except.ok point =>
        match pyGetDE point "gml:pos" (PyVal.str "") with
        | Except.error e => Except.error e
        | Except.ok pos =>
          if pyTruthy pos then
            match pySplitWsE pos with
            | Except.error e => Except.error e
            | Except.ok parts =>
              match parts with
              | [lonS, latS] =>
                match pyFloatStr latS with
                | Except.error e => Except.error e
                | Except.ok latQ =>
                  match pyFloatStr lonS with
                  | Except.error e => Except.error e
                  | Except.ok lonQ =>
                    match pySetItem item "lat" (PyVal.num latQ) with
                    | Except.error e => Except.error e
                    | Except.ok item1 =>
                      match pySetItem item1 "lon" (PyVal.num lonQ) with
                      | Except.error e => Except.error e
                      | Except.ok item2 => bayernItemLoop rest item2
              | _ => Except.error "ValueError: values to unpack for gml:pos"
          else bayernItemLoop rest item
    else if strStarts key "@" then bayernItemLoop rest item
    else
      match pySetItem item (pyLastStr (pySplitOn1 key ":")) value with
      | Except.error e => Except.error e
      | Except.ok item2 => bayernItemLoop rest item2

/-- Record construction of scrape_bayern for one wfs:member. -/
def bayernSchool (member : PyVal) : Except String School :=
  match pyFirstValue member with
  | Except.error e => Except.error e
  | Except.ok school =>
    match school with
    | PyVal.dict fs =>
      match bayernItemLoop fs (PyVal.dict [("id", pyGetD school "@gml:id" PyVal.none)]) with
      | Except.error e => Except.error e
      | Except.ok item =>
        Except.ok
          { name := pyGetD item "schulname" PyVal.none,
            address := pyGetD item "strasse" PyVal.none,
            city := pyGetD item "ort" PyVal.none,
            school_type := pyGetD item "schulart" PyVal.none,
            zip := pyGetD item "postleitzahl" PyVal.none,
            id := PyVal.str ("BY-" ++ pyStr (pyGetD item "id" PyVal.none)),
            latitude := pyGetD item "lat" PyVal.none,
            longitude := pyGetD item "lon" PyVal.none }
    | _ => Except.error "AttributeError: no attribute get"

/-- scrapers/wfs_xml.scrape_bayern on the parsed WFS document. -/
def scrape_bayern (fetchedXml : Except String PyVal) : Except String (List School) :=
  match fetchedXml with
  | Except.error e => Except.error e
  | Except.ok data =>
    match parse_wfs_members data with
    | Except.error e => Except.error e
    | Except.ok members => mapME bayernSchool members

/-- The field-copy loop of scrape_thueringen: the geometry and gml id
keys are skipped, falsy values are skipped, other keys are copied with
the namespace stripped when present. -/
def thItemLoop : List (String × PyVal) → PyVal → Except String PyVal
  | [], item => Except.ok item
  | (key, value) :: rest, item =>
    if key = "kommunal:GEOM" || key = "@gml:id" || !pyTruthy value then
      thItemLoop rest item
    else
      let clean_key := if strHasSub key ":" then pyLastStr (pySplitOn1 key ":") else key
      match pySetItem item clean_key value with
      | Except.error e => Except.error e
      | Except.ok item2 => thItemLoop rest item2

/-- Coordinate step of scrape_thueringen: when gml:pos is non-empty it
is unpacked as lon lat and both floats are stored (lat first). -/
def thGeoItem (pos : PyVal) : Except String PyVal :=
  if pyTruthy pos then
    match pySplitWsE pos with
    | Except.error e => Except.error e
    | Except.ok parts =>
      match parts with
      | [lonS, latS] =>
        match pyFloatStr latS with
        | Except.error e => Except.error e
        | Except.ok latQ =>
          match pyFloatStr lonS with
          | Except.error e => Except.error e
          | Except.ok lonQ =>
            Except.ok (PyVal.dict [("lat", PyVal.num latQ), ("lon", PyVal.num lonQ)])
      | _ => Except.error "ValueError: values to unpack for gml:pos"
  else Except.ok (PyVal.dict [])

/-- Record construction of scrape_thueringen for one wfs:member. -/
def thSchool (member : PyVal) : Except String School :=
  match pyGetDE member "kommunal:komm_schul" (PyVal.dict []) with
  | Except.error e => Except.error e
  | Except.ok school_data =>
  match pyGetDE school_data "kommunal:GEOM" (PyVal.dict []) with
  | Except.error e => Except.error e
  | Except.ok geom =>
  match pyGetDE geom "gml:Point" (PyVal.dict []) with
  | Except.error e => Except.error e
  | Except.ok point =>
  match pyGetDE point "gml:pos" (PyVal.str "") with
  | Except.error e => Except.error e
  | Except.ok pos =>
  match thGeoItem pos with
  | Except.error e => Except.error e
  | Except.ok item0 =>
  match school_data with
  | PyVal.dict fs =>
    match thItemLoop fs item0 with
    | Except.error e => Except.error e
    | Except.ok item =>
      match pyJoinE " "
          ([pyGetD item "Strasse" PyVal.none, pyGetD item "Hausnummer" PyVal.none].filter
            (fun v => pyTruthy v)) with
      | Except.error e => Except.error e
      | Except.ok addressS =>
        Except.ok
          { name := pyGetD item "Name" PyVal.none,
            id := PyVal.str ("TH-" ++ pyStr (pyGetD item "Schulnummer" PyVal.none)),
            address := PyVal.str addressS,
            zip := pyGetD item "PLZ" PyVal.none,
            city := pyGetD item "Ort" PyVal.none,
            website := pyGetD item "Webseite" PyVal.none,
            email := pyGetD item "EMail" PyVal.none,
            school_type := pyGetD item "Schulart" PyVal.none,
            provider := pyGetD item "Traeger" PyVal.none,
            fax := pyGetD item "Faxnummer" PyVal.none,
            phone := pyGetD item "Telefonnummer" PyVal.none,
            latitude := pyGetD item "lat" PyVal.none,
            longitude := pyGetD item "lon" PyVal.none }
  | _ => Except.error "AttributeError: no attribute items"

/-- scrapers/wfs_xml.scrape_thueringen on the parsed WFS document. -/
def scrape_thueringen (fetchedXml : Except String PyVal) : Except String (List School) :=
  match fetchedXml with
  | Except.error e => Except.error e
  | Except.ok data =>
    match parse_wfs_members data with
    | Except.error e => Except.error e
    | Except.ok members => mapME thSchool members

/-- Python `x in v` membership for the container kinds appearing in the
MV payload. -/
def pyInE (container : PyVal) (x : String) : Except String Bool :=
  match container with
  | PyVal.dict fs => Except.ok (dictFind fs x).isSome
  | PyVal.str s => Except.ok (strHasSub s x)
  | PyVal.list xs =>
    Except.ok (xs.any (fun v => match v with | PyVal.str t => t = x | _ => false))
  | _ => Except.error "TypeError: argument is not iterable"

/-- The as_string closure of scrape_mecklenburg_vorpommern: str(int(v))
when v converts, else str(v) for truthy v, else the empty string. -/
def as_string (value : PyVal) : String :=
  match pyToInt value with
  | Except.ok n => toString n
  | Except.error _ => if pyTruthy value then pyStr value else ""

/-- The extract_school_data loop of scrape_mecklenburg_vorpommern: the
geometry key unpacks gml:pos as lat lon (note the reversed order
relative to Bayern) and float-converts both; at-keys are dropped; other
keys are copied with the namespace stripped when present. -/
def mvItemLoop : List (String × PyVal) → PyVal → Except String PyVal
  | [], item => Except.ok item
  | (key, value) :: rest, item =>
    if key = "ms:msGeometry" then
      match pyGetDE value "gml:Point" (PyVal.dict []) with
      | Except.error e => Except.error e
      | Except.ok point =>
        match pyGetDE point "gml:pos" (PyVal.str "") with
        | Except.error e => Except.error e
        | Except.ok pos =>
          if pyTruthy pos then
            match pySplitWsE pos with
            | Except.error e => Except.error e
            | Except.ok parts =>
              match parts with
              | [latS, lonS] =>
                match pyFloatStr latS with
                | Except.error e => Except.error e
                | Except.ok latQ =>
                  match pyFloatStr lonS with
                  | Except.error e => Except.error e
                  | Except.ok lonQ =>
                    match pySetItem item "lat" (PyVal.num latQ) with
                    | Except.error e => Except.error e
                    | Except.ok item1 =>
                      match pySetItem item1 "lon" (PyVal.num lonQ) with
                      | Except.error e => Except.error e
                      | Except.ok item2 => mvItemLoop rest item2
              | _ => Except.error "ValueError: values to unpack for gml:pos"
          else mvItemLoop rest item
    else if strStarts key "@" then mvItemLoop rest item
    else
      let clean_key := if strHasSub key ":" then pyLastStr (pySplitOn1 key ":") else key
      match pySetItem item clean_key value with
      | Except.error e => Except.error e
      | Except.ok item2 => mvItemLoop rest item2

/-- wfs_xml extract_school_data on one school element. -/
def extract_school_data (school_elem : PyVal) : Except String PyVal :=
  match school_elem with
  | PyVal.dict fs => mvItemLoop fs (PyVal.dict [])
  | _ => Except.error "AttributeError: no attribute items"

/-- wfs_xml._build_mv_school. -/
def build_mv_school (item : PyVal) : Except String School :=
  match safe_strip (pyGetD item "schulname" PyVal.none) with
  | Except.error e => Except.error e
  | Except.ok name =>
  match safe_strip (pyGetD item "strassehnr" PyVal.none) with
  | Except.error e => Except.error e
  | Except.ok address =>
  match safe_strip (pyGetD item "ort" PyVal.none) with
  | Except.error e => Except.error e
  | Except.ok city =>
  match safe_strip (pyGetD item "internet" PyVal.none) with
  | Except.error e => Except.error e
  | Except.ok website =>
  match safe_strip (pyGetD item "emailadresse" PyVal.none) with
  | Except.error e => Except.error e
  | Except.ok email =>
  match safe_strip (pyGetD item "telefon" PyVal.none) with
  | Except.error e => Except.error e
  | Except.ok phone =>
  match safe_strip (pyGetD item "schulleiter" PyVal.none) with
  | Except.error e => Except.error e
  | Except.ok director =>
  match safe_strip (pyGetD item "orgform" PyVal.none) with
  | Except.error e => Except.error e
  | Except.ok school_type =>
  match safe_strip (pyGetD item "rechtsstatus" PyVal.none) with
  | Except.error e => Except.error e
  | Except.ok legal_status =>
  match safe_strip (pyGetD item "schultraeger" PyVal.none) with
  | Except.error e => Except.error e
  | Except.ok provider =>
    Except.ok
      { name := name,
        id := PyVal.str ("MV-" ++ as_string (pyGetD item "dstnr" (PyVal.str ""))),
        address := address,
        address2 := PyVal.str "",
        zip := PyVal.str (pyZfill (as_string (pyGetD item "plz" (PyVal.str ""))) 5),
        city := city,
        website := website,
        email := email,
        phone := phone,
        director := director,
        school_type := school_type,
        legal_status := legal_status,
        provider := provider,
        latitude := pyGetD item "lat" PyVal.none,
        longitude := pyGetD item "lon" PyVal.none }

/-- One school from one member (or nested inner member) of the MV
feature collection. -/
def mvInnerSchool (im : PyVal) : Except String School :=
  match pyFirstValue im with
  | Except.error e => Except.error e
  | Except.ok elem =>
    match extract_school_data elem with
    | Except.error e => Except.error e
    | Except.ok item => build_mv_school item

/-- Effectful concat-map, the shape of the nested MV member loop. -/
def concatMapME (g : α → Except String (List β)) : List α → Except String (List β)
  | [] => Except.ok []
  | a :: rest =>
    match g a with
    | Except.error e => Except.error e
    | Except.ok l =>
      match concatMapME g rest with
      | Except.error e => Except.error e
      | Except.ok more => Except.ok (l ++ more)

/-- Effectful loop with per-element skip: one Python for-loop iteration
returns None for continue, an error for an uncaught exception, or one
record to append. -/
def loopStepME (g : α → Except String (Option β)) : List α → Except String (List β)
  | [] => Except.ok []
  | a :: rest =>
    match g a with
    | Except.error e => Except.error e
    | Except.ok Option.none => loopStepME g rest
    | Except.ok (some b) =>
      match loopStepME g rest with
      | Except.error e => Except.error e
      | Except.ok more => Except.ok (b :: more)

/-- Processing of one top-level wfs:member in
scrape_mecklenburg_vorpommern: nested FeatureCollections contribute one
school per inner member. -/
def mvProcessMember (member : PyVal) : Except String (List School) :=
  match pyInE member "wfs:FeatureCollection" with
  | Except.error e => Except.error e
  | Except.ok hasFC =>
    if hasFC then
      match pyIndexKey member "wfs:FeatureCollection" with
      | Except.error e => Except.error e
      | Except.ok fc =>
        match pyGetDE fc "wfs:member" (PyVal.list []) with
        | Except.error e => Except.error e
        | Except.ok inner0 => mapME mvInnerSchool (asPyList inner0)
    else
      match mvInnerSchool member with
      | Except.error e => Except.error e
      | Except.ok s => Except.ok [s]

/-- scrapers/wfs_xml.scrape_mecklenburg_vorpommern on the parsed WFS
document. -/
def scrape_mecklenburg_vorpommern (fetchedXml : Except String PyVal) :
    Except String (List School) :=
  match fetchedXml with
  | Except.error e => Except.error e
  | Except.ok data =>
    match pyGetDE data "wfs:FeatureCollection" (PyVal.dict []) with
    | Except.error e => Except.error e
    | Except.ok fc =>
      match pyGetDE fc "wfs:member" (PyVal.list []) with
      | Except.error e => Except.error e
      | Except.ok members0 => concatMapME mvProcessMember (asPyList members0)

/- ---------------------------------------------------------------------
CSV scrapers (jedeschule_lite/scrapers/csv_scrapers.py).  The Python
csv module is modelled for the unquoted records these sources use: a
row is the delimiter-split line, a blank line yields the empty row. -/

/-- Python str.splitlines: split at LF, CR and CRLF, with no trailing
empty line. -/
def splitlinesAux : List Char → List Char → List String
  | [], acc => if acc.isEmpty then [] else [String.mk acc.reverse]
  | [c], acc =>
    if c = Char.ofNat 10 || c = Char.ofNat 13 then [String.mk acc.reverse]
    else [String.mk (c :: acc).reverse]
  | c :: c2 :: cs2, acc =>
    if c = Char.ofNat 10 then String.mk acc.reverse :: splitlinesAux (c2 :: cs2) []
    else if c = Char.ofNat 13 then
      if c2 = Char.ofNat 10 then String.mk acc.reverse :: splitlinesAux cs2 []
      else String.mk acc.reverse :: splitlinesAux (c2 :: cs2) []
    else splitlinesAux (c2 :: cs2) (c :: acc)

def pySplitlines (s : String) : List String := splitlinesAux s.data []

/-- Model of one csv.reader row: the delimiter-split line; a blank line
gives the empty row (which the comprehension guards skip). -/
def csvRow (l : String) (delim : String) : List String :=
  if l.data.isEmpty then [] else pySplitOnStr l delim

/-- Model of one csv.DictReader row: header fields zipped with the
values, missing cells mapped to None (extra cells beyond the header are
dropped). -/
def zipRowAux : List String → List String → List (String × PyVal)
  | [], _ => []
  | k :: ks, [] => (k, PyVal.none) :: zipRowAux ks []
  | k :: ks, v :: vs => (k, PyVal.str v) :: zipRowAux ks vs

/-- Model of csv.DictReader over the given lines: the first line is the
header, blank lines are skipped. -/
def dictReaderModel (lines : List String) (delim : String) : List PyVal :=
  match lines with
  | [] => []
  | header :: rest =>
    let keys := pySplitOnStr header delim
    (rest.filter (fun l => !l.data.isEmpty)).map
      (fun l => PyVal.dict (zipRowAux keys (pySplitOnStr l delim)))

/-- The dict-comprehension of _NRWHelper._get_map over the csv rows
(line one and two already dropped): first column maps to second, rows
with fewer than two columns are skipped, later duplicates overwrite. -/
def nrwGetMap (text : String) : List (String × String) :=
  (((pySplitlines text).drop 2).map (fun l => csvRow l ";")).foldl
    (fun acc row =>
      match row with
      | a :: b :: _ => dictInsertStr acc a b
      | _ => acc)
    []

/-- The dict-comprehension of _NRWHelper._get_provider: first column
maps to the stripped space-join of columns one to three. -/
def nrwGetProvider (text : String) : List (String × String) :=
  (((pySplitlines text).drop 2).map (fun l => csvRow l ";")).foldl
    (fun acc row =>
      match row with
      | a :: rest => dictInsertStr acc a (pyStrip (String.intercalate " " (rest.take 3)))
      | [] => acc)
    []

/-- The _NRWHelper constructor: the three key files are fetched in the
order rechtsform, schulform, traeger; the first failure propagates.
The result triple is the mappings dict. -/
def nrwHelperLoad (rechtsformFetched schulformFetched traegerFetched : Except String String) :
    Except String (List (String × String) × List (String × String) × List (String × String)) :=
  match rechtsformFetched with
  | Except.error e => Except.error e
  | Except.ok r =>
    match schulformFetched with
    | Except.error e => Except.error e
    | Except.ok s =>
      match traegerFetched with
      | Except.error e => Except.error e
      | Except.ok t => Except.ok (nrwGetMap r, nrwGetMap s, nrwGetProvider t)

/-- _NRWHelper.resolve: the mapping lookup, None for an absent or
non-string key. -/
def nrwResolve (m : List (String × String)) (key : PyVal) : PyVal :=
  match key with
  | PyVal.str k =>
    match strAssocFind m k with
    | some v => PyVal.str v
    | Option.none => PyVal.none
  | _ => PyVal.none

/-- The EPSG column handling of scrape_nordrhein_westfalen: the literal
string null selects EPSG:25832. -/
def nrwSourceCrs (v : PyVal) : PyVal :=
  match v with
  | PyVal.str s => if s = "null" then PyVal.str "EPSG:25832" else PyVal.str s
  | _ => v

/-- The coordinate step of scrape_nordrhein_westfalen: the try block
around pyproj Transformer.from_crs / transform assigns lon and lat from
one transform call, any exception (oracle None) leaves both unset. -/
def nrwCoords (o : PyVal → PyVal → PyVal → Option (Rat × Rat))
    (src r h : PyVal) : PyVal × PyVal :=
  match o src r h with
  | some p => (PyVal.num p.2, PyVal.num p.1)
  | Option.none => (PyVal.none, PyVal.none)

/-- Record construction of scrape_nordrhein_westfalen for one DictReader
row. -/
def nrwSchool (rechtsform schulform traeger : List (String × String))
    (transformOracle : PyVal → PyVal → PyVal → Option (Rat × Rat))
    (item : PyVal) : Except String School :=
  match item with
  | PyVal.dict _ =>
    match pyJoinE " "
        [pyGetD item "Schulbezeichnung_1" (PyVal.str ""),
         pyGetD item "Schulbezeichnung_2" (PyVal.str ""),
         pyGetD item "Schulbezeichnung_3" (PyVal.str "")] with
    | Except.error e => Except.error e
    | Except.ok nameJ =>
      let right := pyGetD item "UTMRechtswert" PyVal.none
      let high := pyGetD item "UTMHochwert" PyVal.none
      let source_crs := nrwSourceCrs (pyGetD item "EPSG" PyVal.none)
      let coords := nrwCoords transformOracle source_crs right high
      Except.ok
        { name := PyVal.str (pyStrip nameJ),
          id := PyVal.str ("NW-" ++ pyStr (pyGetD item "Schulnummer" PyVal.none)),
          address := pyGetD item "Strasse" PyVal.none,
          zip := pyGetD item "PLZ" PyVal.none,
          city := pyGetD item "Ort" PyVal.none,
          website := pyGetD item "Homepage" PyVal.none,
          email := pyGetD item "E-Mail" PyVal.none,
          legal_status := nrwResolve rechtsform (pyGetD item "Rechtsform" PyVal.none),
          school_type := nrwResolve schulform (pyGetD item "Schulform" PyVal.none),
          provider := nrwResolve traeger (pyGetD item "Traegernummer" PyVal.none),
          fax := PyVal.str (pyStr (pyGetD item "Faxvorwahl" (PyVal.str "")) ++
            pyStr (pyGetD item "Fax" (PyVal.str ""))),
          phone := PyVal.str (pyStr (pyGetD item "Telefonvorwahl" (PyVal.str "")) ++
            pyStr (pyGetD item "Telefon" (PyVal.str ""))),
          latitude := coords.1,
          longitude := coords.2 }
  | _ => Except.error "AttributeError: no attribute get"

/-- scrapers/csv_scrapers.scrape_nordrhein_westfalen: the main csv is
fetched, its first line dropped, the helper tables are loaded (their
fetch failure propagates), then each row becomes one record. -/
def scrape_nordrhein_westfalen (mainFetched : Except String String)
    (rechtsformFetched schulformFetched traegerFetched : Except String String)
    (transformOracle : PyVal → PyVal → PyVal → Option (Rat × Rat)) :
    Except String (List School) :=
  match mainFetched with
  | Except.error e => Except.error e
  | Except.ok bodyText =>
    let items := dictReaderModel ((pySplitlines bodyText).drop 1) ";"
    match nrwHelperLoad rechtsformFetched schulformFetched traegerFetched with
    | Except.error e => Except.error e
    | Except.ok maps =>
      mapME (nrwSchool maps.1 maps.2.1 maps.2.2 transformOracle) items

/-- The latitude/longitude conversion of scrape_schleswig_holstein:
`float(row[k]) if row.get(k) else None` — a truthy cell is parsed with
float, whose ValueError propagates. -/
def shFloatField (item : PyVal) (key : String) : Except String PyVal :=
  if pyTruthy (pyGetD item key PyVal.none) then
    match pyIndexKey item key with
    | Except.error e => Except.error e
    | Except.ok v =>
      match v with
      | PyVal.str s =>
        match pyFloatStr s with
        | Except.error e => Except.error e
        | Except.ok q => Except.ok (PyVal.num q)
      | PyVal.num q => Except.ok (PyVal.num q)
      | _ => Except.error "TypeError: float() argument"
  else Except.ok PyVal.none

/-- Record construction of scrape_schleswig_holstein for one DictReader
row. -/
def shSchool (row : PyVal) : Except String School :=
  match row with
  | PyVal.dict _ =>
    match shFloatField row "latitude" with
    | Except.error e => Except.error e
    | Except.ok lat =>
      match shFloatField row "longitude" with
      | Except.error e => Except.error e
      | Except.ok lon =>
        Except.ok
          { name := pyGetD row "name" PyVal.none,
            id := PyVal.str ("SH-" ++ pyStr (pyGetD row "id" PyVal.none)),
            address := PyVal.str (pyStrip
              (pyStr (pyGetD row "street" (PyVal.str "")) ++ " " ++
               pyStr (pyGetD row "houseNumber" (PyVal.str "")))),
            zip := pyGetD row "zipcode" PyVal.none,
            city := pyGetD row "city" PyVal.none,
            email := pyGetD row "email" PyVal.none,
            fax := pyGetD row "fax" PyVal.none,
            phone := pyGetD row "phone" PyVal.none,
            latitude := lat,
            longitude := lon }
  | _ => Except.error "AttributeError: no attribute get"

/-- scrapers/csv_scrapers.scrape_schleswig_holstein on its fetched csv
text (tab-delimited, no leading separator line). -/
def scrape_schleswig_holstein (fetched : Except String String) :
    Except String (List School) :=
  match fetched with
  | Except.error e => Except.error e
  | Except.ok text => mapME shSchool (dictReaderModel (pySplitlines text) "\t")

/- ---------------------------------------------------------------------
HTML scrapers (jedeschule_lite/scrapers/html.py).  BeautifulSoup and the
HTTP session are library boundaries: selected elements arrive as plain
structures (attribute lists, stripped text), fetches as oracles. -/

/-- Hex digit value for percent decoding. -/
def hexVal (c : Char) : Option Nat :=
  if c.isDigit then some (c.toNat - 48)
  else
    let l := (pyLowerChar c).toNat
    if 97 ≤ l && l ≤ 102 then some (l - 87) else Option.none

/-- Byte-wise percent decoding behind urllib.parse.unquote; multi-byte
UTF-8 escapes are not used by the stated payloads. -/
def percentDecode : List Char → List Char
  | [] => []
  | [c] => [c]
  | [c, a] => c :: percentDecode [a]
  | c :: a :: b :: rest =>
    if c = '%' then
      match hexVal a, hexVal b with
      | some x, some y => Char.ofNat (16 * x + y) :: percentDecode rest
      | _, _ => c :: percentDecode (a :: b :: rest)
    else c :: percentDecode (a :: b :: rest)

def pyUnquote (s : String) : String := String.mk (percentDecode s.data)

/-- urllib.parse unquoting with plus-to-space, as parse_qs applies. -/
def pyUnquotePlus (s : String) : String :=
  String.mk (percentDecode (s.data.map (fun c => if c = '+' then ' ' else c)))

/-- The fix_number closure of scrape_bremen: keep only digits. -/
def fixNumber (s : String) : String := String.mk (s.data.filter Char.isDigit)

/-- Five consecutive digits at the head of the list. -/
def isFiveDigits (l : List Char) : Bool :=
  (l.take 5).length = 5 && (l.take 5).all Char.isDigit

/-- Fuelled scan for the non-overlapping matches of the regex of five
digits (re.findall in scrape_bremen). -/
def runsFiveFuel : Nat → List Char → List String
  | 0, _ => []
  | _ + 1, [] => []
  | fuel + 1, c :: cs =>
    if isFiveDigits (c :: cs) then
      String.mk ((c :: cs).take 5) :: runsFiveFuel fuel (List.drop 4 cs)
    else runsFiveFuel fuel cs

def fiveDigitRuns (s : String) : List String := runsFiveFuel s.data.length s.data

/-- Fuelled model of re.split on five consecutive digits. -/
def splitFiveFuel : Nat → List Char → List Char → List String
  | 0, rest, acc => [String.mk (acc.reverse ++ rest)]
  | _ + 1, [], acc => [String.mk acc.reverse]
  | fuel + 1, c :: cs, acc =>
    if isFiveDigits (c :: cs) then
      String.mk acc.reverse :: splitFiveFuel fuel (List.drop 4 cs) []
    else splitFiveFuel fuel cs (c :: acc)

def reSplitFive (s : String) : List String := splitFiveFuel s.data.length s.data []

/-- Search model of the regex of digits, one space, then a non-empty
rest (re.search in scrape_hessen): earliest start wins, the digit run is
maximal. -/
def digitsSpaceScan : List Char → Option (String × String)
  | [] => Option.none
  | c :: cs =>
    if c.isDigit then
      let run := (c :: cs).takeWhile Char.isDigit
      let rest := (c :: cs).drop run.length
      match rest with
      | sp :: tail =>
        if sp = ' ' && !tail.isEmpty then some (String.mk run, String.mk tail)
        else digitsSpaceScan cs
      | [] => digitsSpaceScan cs
    else digitsSpaceScan cs

/-- The query component of a URL (urllib.parse.urlparse: between the
first question mark and a fragment hash). -/
def urlQueryModel (u : String) : String :=
  match pySplitOn1 u "?" with
  | [_, rest] =>
    match pySplitOn1 rest "#" with
    | r :: _ => r
    | [] => rest
  | _ => ""

/-- urllib.parse.parse_qs restricted to one key: pairs without an equal
sign or with an empty value are dropped, names and values unquoted. -/
def parseQsGet (q key : String) : List String :=
  ((pySplitOnStr q "&").filter (fun p => !p.data.isEmpty)).filterMap (fun p =>
    match pySplitOn1 p "=" with
    | [n, v] =>
      if !v.data.isEmpty && pyUnquotePlus n = key then some (pyUnquotePlus v)
      else Option.none
    | _ => Option.none)

/-- Python `s.rstrip(slash)`. -/
def rstripSlash (s : String) : String :=
  String.mk (s.data.reverse.dropWhile (fun c => c = '/')).reverse

/-- Set-accumulation in list form: first insertion wins, later
duplicates are dropped (a deterministic model of Python set iteration). -/
def dedupKeepFirst : List String → List String → List String
  | acc, [] => acc
  | acc, h :: t =>
    if acc.contains h then dedupKeepFirst acc t else dedupKeepFirst (acc ++ [h]) t

/-- A selected HTML element: its attribute list. -/
structure BsTag where
  attrs : List (String × String)

/-- Element attribute access with default (tag.get of bs4). -/
def tagGetD (t : BsTag) (key dflt : String) : String :=
  (strAssocFind t.attrs key).getD dflt

/-- Element attribute subscript (KeyError when absent). -/
def tagIndex (t : BsTag) (key : String) : Except String String :=
  match strAssocFind t.attrs key with
  | some v => Except.ok v
  | Option.none => Except.error ("KeyError: " ++ key)

/- --------------------------------------------------------------------
Niedersachsen. -/

/-- Inner loop of the XSRF token extraction: first matching part of one
cookie. -/
def niTokenFromParts : List String → Option String
  | [] => Option.none
  | p :: rest =>
    let q := pyStrip p
    if strStarts q "XSRF-TOKEN=" then
      some (pyUnquote (pyLastStr (pySplitOn1 q "=")))
    else niTokenFromParts rest

/-- Outer loop of the XSRF token extraction: a later cookie with a
matching part overwrites (the inner break stops only the part loop). -/
def niTokenLoop : List String → Option String → Option String
  | [], tok => tok
  | cookie :: rest, tok =>
    match niTokenFromParts (pySplitOnStr cookie ";") with
    | some t => niTokenLoop rest (some t)
    | Option.none => niTokenLoop rest tok

/-- Record construction of scrape_niedersachsen for one detail payload. -/
def niBuild (schulnr : PyVal) (item : PyVal) : Except String School :=
  match item with
  | PyVal.dict _ =>
    match pyJoinE " " [pyGetD item "schulname" (PyVal.str ""),
                       pyGetD item "namenszuatz" (PyVal.str "")] with
    | Except.error e => Except.error e
    | Except.ok nameJ =>
    match pyIndexNth (pyOr (pyGetD item "sdb_adressen" PyVal.none)
        (PyVal.list [PyVal.dict []])) 0 with
    | Except.error e => Except.error e
    | Except.ok address_info =>
    match pyGetDE address_info "sdb_ort" (PyVal.dict []) with
    | Except.error e => Except.error e
    | Except.ok ort =>
    match pyGetDE (pyOr (pyGetD item "sdb_art" PyVal.none) (PyVal.dict [])) "art" PyVal.none with
    | Except.error e => Except.error e
    | Except.ok school_type =>
    match pyGetDE (pyOr (pyGetD item "sdb_traeger" PyVal.none) (PyVal.dict [])) "name" PyVal.none with
    | Except.error e => Except.error e
    | Except.ok provider =>
    match pyGetDE (pyOr (pyGetD item "sdb_traegerschaft" PyVal.none) (PyVal.dict []))
        "bezeichnung" PyVal.none with
    | Except.error e => Except.error e
    | Except.ok legal_status =>
    match pyGetDE address_info "strasse" PyVal.none with
    | Except.error e => Except.error e
    | Except.ok address =>
    match pyGetDE ort "plz" PyVal.none with
    | Except.error e => Except.error e
    | Except.ok zipv =>
    match pyGetDE ort "ort" PyVal.none with
    | Except.error e => Except.error e
    | Except.ok cityv =>
      Except.ok
        { name := PyVal.str (pyStrip nameJ),
          phone := pyGetD item "telefon" PyVal.none,
          fax := pyGetD item "fax" PyVal.none,
          email := pyGetD item "email" PyVal.none,
          website := pyGetD item "homepage" PyVal.none,
          address := address,
          zip := zipv,
          city := cityv,
          school_type := school_type,
          provider := provider,
          legal_status := legal_status,
          id := PyVal.str ("NI-" ++ pyStr schulnr) }
  | _ => Except.error "AttributeError: no attribute get"

/-- Detail loop of scrape_niedersachsen: entries without a truthy
schulnr are skipped, a failing detail fetch skips the entry, each
remaining entry becomes one record. -/
def niLoop (detailOracle : String → Except String PyVal) :
    List PyVal → Except String (List School)
  | [] => Except.ok []
  | s :: rest =>
    match pyGetDE s "schulnr" PyVal.none with
    | Except.error e => Except.error e
    | Except.ok schulnr =>
      if !pyTruthy schulnr then niLoop detailOracle rest
      else
        match detailOracle (pyStr schulnr) with
        | Except.error _ => niLoop detailOracle rest
        | Except.ok item =>
          match niBuild schulnr item with
          | Except.error e => Except.error e
          | Except.ok sch =>
            match niLoop detailOracle rest with
            | Except.error e => Except.error e
            | Except.ok more => Except.ok (sch :: more)

/-- scrapers/html.scrape_niedersachsen: the session fetch yields the
Set-Cookie header (absence defaults to the empty string), a missing
XSRF token returns the empty list, then the search post yields the
school list and the detail oracle is consulted per schulnr. -/
def scrape_niedersachsen (sessionFetched : Except String (Option String))
    (searchFetched : Except String PyVal)
    (detailOracle : String → Except String PyVal) : Except String (List School) :=
  match sessionFetched with
  | Except.error e => Except.error e
  | Except.ok setCookieOpt =>
    let setCookie := setCookieOpt.getD ""
    match niTokenLoop (pySplitOnStr setCookie ",") Option.none with
    | Option.none => Except.ok []
    | some _ =>
      match searchFetched with
      | Except.error e => Except.error e
      | Except.ok search_data =>
        match pyGetDE search_data "props" (PyVal.dict []) with
        | Except.error e => Except.error e
        | Except.ok props =>
          match pyGetDE props "schools" (PyVal.list []) with
          | Except.error e => Except.error e
          | Except.ok school_list =>
            match pyIter school_list with
            | Except.error e => Except.error e
            | Except.ok items => niLoop detailOracle items

/- --------------------------------------------------------------------
Bremen. -/

/-- One list item of the Bremen detail card: the optional span with a
title attribute and the stripped strings of the item. -/
structure BremenLi where
  span : Option BsTag
  strippedStrings : List String

/-- A parsed Bremen detail page: the visitenkarte list items and the
heading text. -/
structure BremenDetail where
  lis : List BremenLi
  h3Text : Option String

def bremen_list_url : String :=
  "http://www.bildung.bremen.de/detail.php?template=35_schulsuche_stufe2_d"

/-- Simplified model of urllib.parse.urljoin for the oracle key:
absolute links pass through, relative ones append to the base. -/
def urljoinModel (base href : String) : String :=
  if strStarts href "http" then href else base ++ href

/-- Total overwrite on a value that is a dict by construction. -/
def pyDictSetTotal (d : PyVal) (k : String) (v : PyVal) : PyVal :=
  match d with
  | PyVal.dict fs => PyVal.dict (dictSetFields fs k v)
  | other => other

/-- The span-titled list items populate the collection dict with the
space-join of their stripped strings. -/
def bremenLiFold : List BremenLi → PyVal → PyVal
  | [], coll => coll
  | li :: rest, coll =>
    match li.span with
    | some span =>
      bremenLiFold rest (pyDictSetTotal coll (tagGetD span "title" "")
        (PyVal.str (String.intercalate " " li.strippedStrings)))
    | Option.none => bremenLiFold rest coll

/-- fix_number applied to a collection value (iterating a non-string
raises). -/
def fixNumberE : PyVal → Except String String
  | PyVal.str s => Except.ok (fixNumber s)
  | _ => Except.error "TypeError: object is not iterable"

/-- Record construction of scrape_bremen from the filled collection
dict (name known to be truthy). -/
def bremenSchoolOf (coll : PyVal) : Except String School :=
  let address_raw := pyStrip (pyStr (pyGetD coll "Anschrift:" (PyVal.str "")))
  let zip_match := fiveDigitRuns address_raw
  let zip_code := match zip_match with
    | [] => PyVal.none
    | z :: _ => PyVal.str z
  let address_parts := reSplitFive address_raw
  let address := match address_parts with
    | [] => PyVal.none
    | a :: _ => PyVal.str (pyStrip a)
  let city := match address_parts with
    | _ :: b :: _ => PyVal.str (pyStrip b)
    | _ => PyVal.none
  let director :=
    if pyHasKey coll "Ansprechperson" then
      let d0 := pyStr (pyGetD coll "Ansprechperson" (PyVal.str ""))
      let d1 := pyReplaceStr d0 "Schulleitung:" ""
      let d2 := pyReplaceStr d1 "Vertretung:" ","
      let d3 := match pySplitOnStr d2 "," with
        | x :: _ => x
        | [] => ""
      PyVal.str (pyStrip (pyReplaceStr d3 "\n" ""))
    else PyVal.none
  match pyIndexKey coll "name" with
  | Except.error e => Except.error e
  | Except.ok namev =>
  match pyStripE namev with
  | Except.error e => Except.error e
  | Except.ok nameS =>
  match pyIndexKey coll "id" with
  | Except.error e => Except.error e
  | Except.ok idv =>
  match pyStripE (pyOr (pyGetD coll "Internet" PyVal.none) (PyVal.str "")) with
  | Except.error e => Except.error e
  | Except.ok websiteS =>
  match pyStripE (pyOr (pyGetD coll "E-Mail-Adresse" PyVal.none) (PyVal.str "")) with
  | Except.error e => Except.error e
  | Except.ok emailS =>
  match fixNumberE (pyGetD coll "Telefax" (PyVal.str "")) with
  | Except.error e => Except.error e
  | Except.ok faxS =>
  match fixNumberE (pyGetD coll "Telefon" (PyVal.str "")) with
  | Except.error e => Except.error e
  | Except.ok phoneS =>
    Except.ok
      { name := nameS,
        id := PyVal.str ("HB-" ++ pyStr idv),
        address := address,
        zip := zip_code,
        city := city,
        website := if pyTruthy websiteS then websiteS else PyVal.none,
        email := emailS,
        fax := PyVal.str faxS,
        phone := PyVal.str phoneS,
        director := director }

/-- One loop iteration of scrape_bremen: links without Sid are skipped,
a failing detail fetch skips the link, pages without list items or
without a name are skipped; otherwise one record is produced. -/
def bremenStep (detailOracle : String → Except String BremenDetail) (link : BsTag) :
    Except String (Option School) :=
  let href := tagGetD link "href" ""
  if !strHasSub href "Sid=" then Except.ok Option.none
  else
    let school_id :=
      if strHasSub href "de&Sid=" then pyLastStr (pySplitOn1 href "de&Sid=") else ""
    match detailOracle (urljoinModel bremen_list_url href) with
    | Except.error _ => Except.ok Option.none
    | Except.ok page =>
      if page.lis.isEmpty then Except.ok Option.none
      else
        let coll0 := PyVal.dict [("id", PyVal.str (pyZfill school_id 3))]
        let coll1 := pyDictSetTotal coll0 "name"
          (match page.h3Text with
           | some t => PyVal.str t
           | Option.none => PyVal.none)
        let coll := bremenLiFold page.lis coll1
        if !pyTruthy (pyGetD coll "name" PyVal.none) then Except.ok Option.none
        else
          match bremenSchoolOf coll with
          | Except.error e => Except.error e
          | Except.ok sch => Except.ok (some sch)

/-- scrapers/html.scrape_bremen over the selected links of the list page
and the detail-page oracle. -/
def scrape_bremen (listFetched : Except String (List BsTag))
    (detailOracle : String → Except String BremenDetail) : Except String (List School) :=
  match listFetched with
  | Except.error e => Except.error e
  | Except.ok links => loopStepME (bremenStep detailOracle) links

/- --------------------------------------------------------------------
Hessen. -/

/-- The parsed Hessen search page: the optional csrf input element and
the school-type option elements. -/
structure HessenListPage where
  csrfInput : Option BsTag
  typeOptions : List BsTag

/-- A parsed Hessen detail page: the pre texts, the hrefs of links
inside pre elements, the optional type text, and the optional OSM
iframe src. -/
structure HessenDetail where
  preTexts : List String
  preHrefs : List String
  typeText : Option String
  iframeSrc : Option String

/-- school_types of scrape_hessen: option values that are present and
truthy. -/
def hessenSchoolTypes (options : List BsTag) : List String :=
  options.filterMap (fun o =>
    match strAssocFind o.attrs "value" with
    | some v => if !v.data.isEmpty then some v else Option.none
    | Option.none => Option.none)

/-- csrf token of scrape_hessen: the value attribute when the input was
found (KeyError propagates), the empty string otherwise. -/
def hessenCsrfToken (csrf : Option BsTag) : Except String String :=
  match csrf with
  | some tag => tagIndex tag "value"
  | Option.none => Except.ok ""

/-- The per-type search loop: a failing search post skips that type,
hrefs accumulate into the (deterministically modelled) set. -/
def hessenCollectUrls (searchOracle : String → Except String (List String)) :
    List String → List String → List String
  | [], acc => acc
  | st :: rest, acc =>
    match searchOracle st with
    | Except.error _ => hessenCollectUrls searchOracle rest acc
    | Except.ok hrefs => hessenCollectUrls searchOracle rest (dedupKeepFirst acc hrefs)

/-- html.extract_coords_from_osm_url: the first marker query value of
the URL split at the first comma and float-parsed; any failure gives
the absent pair. -/
def extract_coords_from_osm_url (url : String) : Option Rat × Option Rat :=
  match parseQsGet (urlQueryModel url) "marker" with
  | [] => (Option.none, Option.none)
  | mv :: _ =>
    match pySplitOn1 mv "," with
    | [latS, lonS] =>
      match pyFloatStr latS, pyFloatStr lonS with
      | Except.ok la, Except.ok lo => (some la, some lo)
      | _, _ => (Option.none, Option.none)
    | _ => (Option.none, Option.none)

/-- The Fax fold of scrape_hessen over the pre texts: the last matching
line wins. -/
def hessenFaxFold : List String → Option String → Option String
  | [], fax => fax
  | text :: rest, fax =>
    if strHasSub text "Fax: " then
      match (pySplitOnStr text "\n").filter (fun l => strHasSub l "Fax: ") with
      | l :: _ => hessenFaxFold rest (some (pyStrip (pyReplaceStr l "Fax: " "")))
      | [] => hessenFaxFold rest fax
    else hessenFaxFold rest fax

/-- The phone/website fold of scrape_hessen over the pre link hrefs. -/
def hessenLinkFold : List String → Option String × Option String →
    Option String × Option String
  | [], pw => pw
  | href :: rest, pw =>
    if strHasSub href "tel:" then
      hessenLinkFold rest (some (pyReplaceStr href "tel:" ""), pw.2)
    else if strHasSub href "http" then hessenLinkFold rest (pw.1, some href)
    else hessenLinkFold rest pw

def optStr : Option String → PyVal
  | some s => PyVal.str s
  | Option.none => PyVal.none

/-- Coordinates of one Hessen record: the OSM iframe marker, with the
minus-one placeholder filtered to the absent pair. -/
def hessenCoords (iframeSrc : Option String) : PyVal × PyVal :=
  match iframeSrc with
  | Option.none => (PyVal.none, PyVal.none)
  | some src =>
    match extract_coords_from_osm_url src with
    | (some la, some lo) =>
      if la = -1 && lo = -1 then (PyVal.none, PyVal.none)
      else (PyVal.num la, PyVal.num lo)
    | _ => (PyVal.none, PyVal.none)

/-- One loop iteration of scrape_hessen: failing fetches, pages without
pre elements, short address blocks and unmatched zip lines are skipped;
otherwise one record is produced. -/
def hessenStep (detailOracle : String → Except String HessenDetail) (url : String) :
    Except String (Option School) :=
  match detailOracle url with
  | Except.error _ => Except.ok Option.none
  | Except.ok page =>
    match page.preTexts with
    | [] => Except.ok Option.none
    | t0 :: _ =>
      let address_lines := pySplitOnStr t0 "\n"
      if address_lines.length < 4 then Except.ok Option.none
      else
        match digitsSpaceScan ((address_lines.get? 3).getD "").data with
        | Option.none => Except.ok Option.none
        | some zc =>
          let fax := hessenFaxFold page.preTexts Option.none
          let pw := hessenLinkFold page.preHrefs (Option.none, Option.none)
          let coords := hessenCoords page.iframeSrc
          Except.ok (some
            { name := PyVal.str (pyStrip ((address_lines.get? 1).getD "")),
              phone := optStr pw.1,
              fax := optStr fax,
              website := optStr pw.2,
              address := PyVal.str (pyStrip ((address_lines.get? 2).getD "")),
              city := PyVal.str (pyStrip zc.2),
              zip := PyVal.str zc.1,
              school_type := optStr page.typeText,
              id := PyVal.str ("HE-" ++ pyLastStr (pySplitOnStr url "=")),
              latitude := coords.1,
              longitude := coords.2 })

/-- scrapers/html.scrape_hessen: the list page yields the csrf token
(a missing value attribute propagates) and the school types; each type
contributes detail URLs; each URL contributes at most one record. -/
def scrape_hessen (listFetched : Except String HessenListPage)
    (searchOracle : String → Except String (List String))
    (detailOracle : String → Except String HessenDetail) : Except String (List School) :=
  match listFetched with
  | Except.error e => Except.error e
  | Except.ok page =>
    match hessenCsrfToken page.csrfInput with
    | Except.error e => Except.error e
    | Except.ok _ =>
      loopStepME (hessenStep detailOracle)
        (hessenCollectUrls searchOracle (hessenSchoolTypes page.typeOptions) [])

/- --------------------------------------------------------------------
Rheinland-Pfalz. -/

def RP_SCHOOL_TYPES : List (String × String) :=
  [("BEA", "BEA"),
   ("BBS", "Berufsbildende Schule"),
   ("FWS", "Freie Waldorfschule"),
   ("GHS", "Grund- und Hauptschule (org. verbunden)"),
   ("GRS+", "Grund- und Realschule plus (org. verbunden)"),
   ("GS", "Grundschule"),
   ("GY", "Gymnasium"),
   ("HS", "Hauptschule"),
   ("IGS", "Integrierte Gesamtschule"),
   ("Koll", "Kolleg"),
   ("Koll/AGY", "Kolleg und Abendgymnasium (org.verbunden)"),
   ("RS", "Realschule"),
   ("RS+", "Realschule plus"),
   ("RS+FOS", "Realschule plus mit Fachoberschule"),
   ("StudSem", "Studienseminar")]

/-- Record construction of _parse_rlp_geoportal for one feature. -/
def rlpGeoSchool (f : PyVal) : Except String School :=
  match f with
  | PyVal.dict _ =>
    Except.ok
      { name := pyOr (pyGetD f "schulname" PyVal.none) (pyGetD f "name" PyVal.none),
        id := PyVal.str ("RP-" ++ pyStr (pyOr (pyGetD f "schulnummer" PyVal.none)
          (pyGetD f "OBJECTID" PyVal.none))),
        address := pyGetD f "strasse" PyVal.none,
        zip := pyGetD f "plz" PyVal.none,
        city := pyGetD f "ort" PyVal.none,
        school_type := pyOr (pyGetD f "schulart" PyVal.none) (pyGetD f "schulform" PyVal.none),
        phone := pyGetD f "telefon" PyVal.none,
        fax := pyGetD f "telefax" PyVal.none,
        email := pyGetD f "email" PyVal.none,
        website := pyOr (pyGetD f "internet" PyVal.none) (pyGetD f "homepage" PyVal.none),
        provider := pyGetD f "traeger" PyVal.none,
        latitude := pyGetD f "lat" PyVal.none,
        longitude := pyGetD f "lon" PyVal.none }
  | _ => Except.error "AttributeError: no attribute get"

/-- html._parse_rlp_geoportal. -/
def parse_rlp_geoportal (data : PyVal) : Except String (List School) :=
  match parse_geojson_features data with
  | Except.error e => Except.error e
  | Except.ok features => mapME rlpGeoSchool features

/-- One selected table cell of the RLP fallback detail page. -/
structure RlpCell where
  textStripped : String
  strippedStrings : List String

structure RlpRow where
  cells : List RlpCell

/-- A parsed RLP fallback detail page. -/
structure RlpDetail where
  hasContainer : Bool
  h1Text : Option String
  rows : List RlpRow
  osmHref : Option String

/-- The table fold of _scrape_rlp_html: two-cell rows populate the item
dict, a single stripped string stays a string, otherwise the list is
kept. -/
def rlpItemFold : List RlpRow → PyVal → PyVal
  | [], item => item
  | row :: rest, item =>
    match row.cells with
    | [c0, c1] =>
      let value_parts := c1.strippedStrings.map pyStrip
      let v := match value_parts with
        | [x] => PyVal.str x
        | _ => PyVal.list (value_parts.map PyVal.str)
      rlpItemFold rest (pyDictSetTotal item (pyReplaceStr c0.textStripped ":" "") v)
    | _ => rlpItemFold rest item

/-- OSM link coordinates of the RLP fallback: the two final path
segments float-parsed, any failure giving the absent pair. -/
def rlpOsmCoords (osmHref : Option String) : PyVal × PyVal :=
  match osmHref with
  | Option.none => (PyVal.none, PyVal.none)
  | some href =>
    match (pySplitOnStr (rstripSlash href) "/").reverse with
    | b :: a :: _ =>
      match pyFloatStr a, pyFloatStr b with
      | Except.ok la, Except.ok lo => (PyVal.num la, PyVal.num lo)
      | _, _ => (PyVal.none, PyVal.none)
    | _ => (PyVal.none, PyVal.none)

/-- Address block of the RLP fallback: a list value of at least two
entries yields address, zip and city, anything else the absent
triple. -/
def rlpAddress (item : PyVal) : Except String (PyVal × PyVal × PyVal) :=
  match pyGetD item "Anschrift" (PyVal.list []) with
  | PyVal.list l =>
    if 2 ≤ l.length then
      match l.getLast? with
      | some (PyVal.str s) =>
        let zip_city := pySplitOn1 s " "
        let zipv := match zip_city with
          | z :: _ => PyVal.str z
          | [] => PyVal.none
        let cityv := match zip_city with
          | _ :: c :: _ => PyVal.str c
          | _ => PyVal.none
        Except.ok ((l.get? 1).getD PyVal.none, zipv, cityv)
      | some _ => Except.error "AttributeError: no attribute split"
      | Option.none => Except.ok (PyVal.none, PyVal.none, PyVal.none)
    else Except.ok (PyVal.none, PyVal.none, PyVal.none)
  | _ => Except.ok (PyVal.none, PyVal.none, PyVal.none)

/-- School type of the RLP fallback from the Kurzbezeichnung value. -/
def rlpSchoolType (item : PyVal) : PyVal :=
  let kurz := pyGetD item "Kurzbezeichnung" PyVal.none
  if pyTruthy kurz then
    let first_part := match kurz with
      | PyVal.str s =>
        match pySplitOnStr s " " with
        | x :: _ => x
        | [] => ""
      | _ => ""
    if strStarts first_part "SF" then PyVal.str "Förderschule"
    else
      match strAssocFind RP_SCHOOL_TYPES first_part with
      | some v => PyVal.str v
      | Option.none => PyVal.none
  else PyVal.none

/-- One loop iteration of _scrape_rlp_html: a failing fetch or a page
without the detail container is skipped; otherwise one record is
produced. -/
def rlpStep (detailOracle : String → Except String RlpDetail) (link : String) :
    Except String (Option School) :=
  match detailOracle link with
  | Except.error _ => Except.ok Option.none
  | Except.ok page =>
    if !page.hasContainer then Except.ok Option.none
    else
      let item := rlpItemFold page.rows (PyVal.dict [])
      let coords := rlpOsmCoords page.osmHref
      match rlpAddress item with
      | Except.error e => Except.error e
      | Except.ok addr3 =>
        match pyReplaceE (pyOr (pyGetD item "E-Mail" PyVal.none) (PyVal.str ""))
            "(at)" "@" with
        | Except.error e => Except.error e
        | Except.ok email =>
          Except.ok (some
            { name := optStr page.h1Text,
              id := PyVal.str ("RP-" ++ pyStr (pyGetD item "Schulnummer" (PyVal.str ""))),
              address := addr3.1,
              city := addr3.2.2,
              zip := addr3.2.1,
              latitude := coords.1,
              longitude := coords.2,
              website := pyGetD item "Internet" PyVal.none,
              email := email,
              provider := pyGetD item "Träger" PyVal.none,
              fax := pyGetD item "Telefax" PyVal.none,
              phone := pyGetD item "Telefon" PyVal.none,
              school_type := rlpSchoolType item })

/-- html._scrape_rlp_html over the selected detail links and detail
oracle. -/
def scrape_rlp_html (listFetched : Except String (List String))
    (detailOracle : String → Except String RlpDetail) : Except String (List School) :=
  match listFetched with
  | Except.error e => Except.error e
  | Except.ok hrefs => loopStepME (rlpStep detailOracle) (dedupKeepFirst [] hrefs)

/-- scrapers/html.scrape_rheinland_pfalz: the GeoPortal JSON endpoint is
primary; any failure there falls back to the HTML crawl. -/
def scrape_rheinland_pfalz (primaryFetched : Except String PyVal)
    (listFetched : Except String (List String))
    (detailOracle : String → Except String RlpDetail) : Except String (List School) :=
  match (match primaryFetched with
         | Except.error e => Except.error e
         | Except.ok data => parse_rlp_geoportal data) with
  | Except.ok schools => Except.ok schools
  | Except.error _ => scrape_rlp_html listFetched detailOracle

/- ---------------------------------------------------------------------
Runner (jedeschule_lite/runner.py).  The SCRAPERS registry maps sixteen
state keys to scraper functions; for the orchestration claims the
registered scrapers are an abstract assignment from key to outcome
(a raised exception becomes `Except.error` with its str()). -/

/-- The sixteen registry keys, in the insertion order of the SCRAPERS
dict in runner.py. -/
def SCRAPERS_keys : List String :=
  ["baden-wuerttemberg", "bayern", "berlin", "brandenburg", "bremen",
   "hamburg", "hessen", "mecklenburg-vorpommern", "niedersachsen",
   "nordrhein-westfalen", "rheinland-pfalz", "saarland", "sachsen",
   "sachsen-anhalt", "schleswig-holstein", "thueringen"]

/-- The key normalisation `state.lower().strip()` applied before every
registry lookup.  String.toLower/String.trim model the ASCII behaviour
of the Python methods, which covers every registry key. -/
def normKey (state : String) : String := pyStrip (pyLower state)

/-- Lexicographic code-point comparison on character lists, the order
Python uses for string comparison. -/
def listCharLt : List Char → List Char → Bool
  | [], [] => false
  | [], _ :: _ => true
  | _ :: _, [] => false
  | a :: as, b :: bs =>
    if a.toNat < b.toNat then true
    else if b.toNat < a.toNat then false
    else listCharLt as bs

def strLt (a b : String) : Bool := listCharLt a.data b.data

/-- Insertion step of the model of the Python builtin sorted(). -/
def insertStr (x : String) : List String → List String
  | [] => [x]
  | y :: ys => if strLt y x then y :: insertStr x ys else x :: y :: ys

/-- Model of Python sorted() on a list of strings (code point order). -/
def pySorted : List String → List String
  | [] => []
  | x :: xs => insertStr x (pySorted xs)

/-- The comma-joined sorted key list shown in the unknown-state error. -/
def availableStr : String := String.intercalate ", " (pySorted SCRAPERS_keys)

/-- The message of the ValueError raised by scrape_state for an unknown
key: Unknown state quoted, followed by the sorted, comma-joined keys. -/
def unknownStateMsg (state : String) : String :=
  ("Unknown state " ++ squote ++ state ++ squote ++ ". Available: ") ++ availableStr

/-- runner.scrape_state over an abstract registry behaviour. -/
def scrape_state (scrapers : String → Except String (List School))
    (state : String) : Except String (List School) :=
  let key := normKey state
  if SCRAPERS_keys.contains key then scrapers key
  else Except.error (unknownStateMsg state)

/-- The loop body of runner.scrape_all: unknown keys are skipped with a
warning, a scraper failure is recorded and either swallowed or re-raised
according to on_error. -/
def scrapeAllLoop (scrapers : String → Except String (List School)) (on_error : String) :
    List String → List School → List (String × String) →
    Except String (List School × List (String × String))
  | [], all_schools, errors => Except.ok (all_schools, errors)
  | state :: rest, all_schools, errors =>
    let key := normKey state
    if SCRAPERS_keys.contains key then
      match scrapers key with
      | Except.ok schools => scrapeAllLoop scrapers on_error rest (all_schools ++ schools) errors
      | Except.error e =>
        if on_error == "raise" then Except.error e
        else scrapeAllLoop scrapers on_error rest all_schools (dictInsertStr errors key e)
    else scrapeAllLoop scrapers on_error rest all_schools errors

/-- The `targets = states or list(SCRAPERS.keys())` line: None and the
empty list are both falsy and select all sixteen keys. -/
def targetsOf (states : Option (List String)) : List String :=
  match states with
  | Option.none => SCRAPERS_keys
  | some l => if l.isEmpty then SCRAPERS_keys else l

/-- runner.scrape_all.  The Python function returns only the school
list; the model also exposes the error dict it accumulates (the failure
report printed at the end). -/
def scrape_all (scrapers : String → Except String (List School))
    (states : Option (List String)) (on_error : String) :
    Except String (List School × List (String × String)) :=
  scrapeAllLoop scrapers on_error (targetsOf states) [] []

/-- Specification-side description (from the spec, for the refinement
statements about scrape_all): the concatenation of the record lists of
the registered targets whose scraper succeeded, in request order. -/
def gatheredFromSuccesses (scrapers : String → Except String (List School)) :
    List String → List School
  | [] => []
  | state :: rest =>
    let key := normKey state
    if SCRAPERS_keys.contains key then
      match scrapers key with
      | Except.ok schools => schools ++ gatheredFromSuccesses scrapers rest
      | Except.error _ => gatheredFromSuccesses scrapers rest
    else gatheredFromSuccesses scrapers rest

/-- Specification-side description of the failure report accumulated by
scrape_all in skip mode, starting from a given error dict. -/
def recordedFailures (scrapers : String → Except String (List School)) :
    List String → List (String × String) → List (String × String)
  | [], errors => errors
  | state :: rest, errors =>
    let key := normKey state
    if SCRAPERS_keys.contains key then
      match scrapers key with
      | Except.ok _ => recordedFailures scrapers rest errors
      | Except.error e => recordedFailures scrapers rest (dictInsertStr errors key e)
    else recordedFailures scrapers rest errors

/- ---------------------------------------------------------------------
Lemmas about the error dict and the scrape_all loop. -/

theorem mem_dictInsertStr_self (l : List (String × String)) (k v : String) :
    (k, v) ∈ dictInsertStr l k v := by
  induction l with
  | nil => simp [dictInsertStr]
  | cons p rest ih =>
    obtain ⟨k0, v0⟩ := p
    by_cases h : k0 = k
    · subst h
      rw [dictInsertStr, if_pos rfl]
      exact List.mem_cons_self _ _
    · rw [dictInsertStr, if_neg h]
      exact List.mem_cons_of_mem _ ih

theorem mem_dictInsertStr_of_mem {l : List (String × String)} {k v k0 v0 : String}
    (hm : (k, v) ∈ l) (hc : k0 = k → v0 = v) : (k, v) ∈ dictInsertStr l k0 v0 := by
  induction l with
  | nil => cases hm
  | cons p rest ih =>
    obtain ⟨k1, v1⟩ := p
    by_cases h : k1 = k0
    · rw [dictInsertStr, if_pos h]
      rcases List.mem_cons.mp hm with heq | hmem
      · cases heq
        have hv : v0 = v := hc h.symm
        subst hv
        exact List.mem_cons_self _ _
      · exact List.mem_cons_of_mem _ hmem
    · rw [dictInsertStr, if_neg h]
      rcases List.mem_cons.mp hm with heq | hmem
      · exact heq ▸ List.mem_cons_self _ _
      · exact List.mem_cons_of_mem _ (ih hmem)

theorem dictInsertStr_forall {P : String × String → Prop} {l : List (String × String)}
    {k v : String} (hl : ∀ p ∈ l, P p) (hkv : P (k, v)) :
    ∀ p ∈ dictInsertStr l k v, P p := by
  induction l with
  | nil => simpa [dictInsertStr] using hkv
  | cons q rest ih =>
    obtain ⟨k1, v1⟩ := q
    by_cases h : k1 = k
    · rw [dictInsertStr, if_pos h]
      intro p hp
      rcases List.mem_cons.mp hp with heq | hmem
      · subst heq; exact h ▸ hkv
      · exact hl p (List.mem_cons_of_mem _ hmem)
    · rw [dictInsertStr, if_neg h]
      intro p hp
      rcases List.mem_cons.mp hp with heq | hmem
      · subst heq; exact hl _ (List.mem_cons_self _ _)
      · exact ih (fun q hq => hl q (List.mem_cons_of_mem _ hq)) p hmem

theorem recordedFailures_mem (f : String → Except String (List School)) :
    ∀ (ts : List String) (errs : List (String × String)) (k e : String),
      f k = Except.error e →
      ((k, e) ∈ errs ∨ ∃ t ∈ ts, normKey t = k ∧ SCRAPERS_keys.contains k = true) →
      (k, e) ∈ recordedFailures f ts errs := by
  intro ts
  induction ts with
  | nil =>
    intro errs k e hf h
    rcases h with hm | ⟨t, ht, _⟩
    · simpa [recordedFailures] using hm
    · cases ht
  | cons t rest ih =>
    intro errs k e hf h
    by_cases hc : SCRAPERS_keys.contains (normKey t) = true
    · cases hs : f (normKey t) with
      | ok l =>
        rw [recordedFailures]
        simp only [hc, if_true, hs]
        apply ih errs k e hf
        rcases h with hm | ⟨t1, ht1, hnk, hck⟩
        · exact Or.inl hm
        · rcases List.mem_cons.mp ht1 with rfl | hmem
          · exact absurd (hnk ▸ hs) (by rw [hf]; intro hcontra; cases hcontra)
          · exact Or.inr ⟨t1, hmem, hnk, hck⟩
      | error e1 =>
        rw [recordedFailures]
        simp only [hc, if_true, hs]
        apply ih _ k e hf
        rcases h with hm | ⟨t1, ht1, hnk, hck⟩
        · refine Or.inl (mem_dictInsertStr_of_mem hm (fun hk => ?_))
          have : Except.error (α := List School) e1 = Except.error e := by rw [← hs, hk, hf]
          cases this; rfl
        · rcases List.mem_cons.mp ht1 with rfl | hmem
          · have he : e1 = e := by
              have : Except.error (α := List School) e1 = Except.error e := by rw [← hs, hnk, hf]
              cases this; rfl
            subst he
            exact Or.inl (hnk ▸ mem_dictInsertStr_self errs (normKey t1) e1)
          · exact Or.inr ⟨t1, hmem, hnk, hck⟩
    · rw [recordedFailures]
      simp only [hc, if_false]
      apply ih errs k e hf
      rcases h with hm | ⟨t1, ht1, hnk, hck⟩
      · exact Or.inl hm
      · rcases List.mem_cons.mp ht1 with rfl | hmem
        · exact absurd (hnk ▸ hck) hc
        · exact Or.inr ⟨t1, hmem, hnk, hck⟩

theorem recordedFailures_consistent (f : String → Except String (List School)) :
    ∀ (ts : List String) (errs : List (String × String)),
      (∀ p ∈ errs, f p.1 = Except.error p.2 ∧ SCRAPERS_keys.contains p.1 = true) →
      ∀ p ∈ recordedFailures f ts errs,
        f p.1 = Except.error p.2 ∧ SCRAPERS_keys.contains p.1 = true := by
  intro ts
  induction ts with
  | nil => intro errs h; simpa [recordedFailures] using h
  | cons t rest ih =>
    intro errs h
    by_cases hc : SCRAPERS_keys.contains (normKey t) = true
    · cases hs : f (normKey t) with
      | ok l =>
        rw [recordedFailures]; simp only [hc, if_true, hs]
        exact ih errs h
      | error e1 =>
        rw [recordedFailures]; simp only [hc, if_true, hs]
        exact ih _ (dictInsertStr_forall h ⟨hs, hc⟩)
    · rw [recordedFailures]; simp only [hc, if_false]
      exact ih errs h

theorem scrapeAllLoop_skip (f : String → Except String (List School)) (on_error : String)
    (hoe : (on_error == "raise") = false) :
    ∀ (ts : List String) (acc : List School) (errs : List (String × String)),
      scrapeAllLoop f on_error ts acc errs =
        Except.ok (acc ++ gatheredFromSuccesses f ts, recordedFailures f ts errs) := by
  intro ts
  induction ts with
  | nil => intro acc errs; simp [scrapeAllLoop, gatheredFromSuccesses, recordedFailures]
  | cons t rest ih =>
    intro acc errs
    by_cases hc : SCRAPERS_keys.contains (normKey t) = true
    · cases hs : f (normKey t) with
      | ok schools =>
        rw [scrapeAllLoop, gatheredFromSuccesses, recordedFailures]
        simp only [hc, if_true, hs]
        rw [ih, List.append_assoc]
      | error e =>
        rw [scrapeAllLoop, gatheredFromSuccesses, recordedFailures]
        simp only [hc, if_true, hs, hoe, Bool.false_eq_true, if_false]
        exact ih _ _
    · rw [scrapeAllLoop, gatheredFromSuccesses, recordedFailures]
      simp only [hc, if_false]
      exact ih _ _

theorem scrapeAllLoop_raise (f : String → Except String (List School)) :
    ∀ (pre : List String) (s : String) (post : List String) (e : String)
      (acc : List School) (errs : List (String × String)),
      (∀ t ∈ pre, SCRAPERS_keys.contains (normKey t) = true →
        ∃ l, f (normKey t) = Except.ok l) →
      SCRAPERS_keys.contains (normKey s) = true →
      f (normKey s) = Except.error e →
      scrapeAllLoop f "raise" (pre ++ s :: post) acc errs = Except.error e := by
  intro pre
  induction pre with
  | nil =>
    intro s post e acc errs _ hcs hfs
    rw [List.nil_append, scrapeAllLoop]
    simp only [hcs, if_true, hfs]
    rfl
  | cons t rest ih =>
    intro s post e acc errs hpre hcs hfs
    rw [List.cons_append, scrapeAllLoop]
    by_cases hc : SCRAPERS_keys.contains (normKey t) = true
    · obtain ⟨l, hl⟩ := hpre t (List.mem_cons_self _ _) hc
      simp only [hc, if_true, hl]
      exact ih s post e _ _ (fun u hu => hpre u (List.mem_cons_of_mem _ hu)) hcs hfs
    · simp only [hc, if_false]
      exact ih s post e _ _ (fun u hu => hpre u (List.mem_cons_of_mem _ hu)) hcs hfs

theorem gatheredFromSuccesses_append (f : String → Except String (List School)) :
    ∀ xs ys, gatheredFromSuccesses f (xs ++ ys) =
      gatheredFromSuccesses f xs ++ gatheredFromSuccesses f ys := by
  intro xs
  induction xs with
  | nil => intro ys; simp [gatheredFromSuccesses]
  | cons t rest ih =>
    intro ys
    rw [List.cons_append, gatheredFromSuccesses, gatheredFromSuccesses]
    by_cases hc : SCRAPERS_keys.contains (normKey t) = true
    · cases hs : f (normKey t) with
      | ok schools => simp only [hc, if_true, hs]; rw [ih, List.append_assoc]
      | error e => simp only [hc, if_true, hs]; exact ih ys
    · simp only [hc, if_false]; exact ih ys

/- ---------------------------------------------------------------------
Lemmas for the unknown-state message and string containment. -/

theorem stringData_append (a b : String) : (a ++ b).data = a.data ++ b.data := by
  cases a; cases b; rfl

theorem listHasSub_append (a b p : List Char) (h : listHasSub b p = true) :
    listHasSub (a ++ b) p = true := by
  induction a with
  | nil => simpa using h
  | cons c cs ih =>
    rw [List.cons_append, listHasSub, Bool.or_eq_true]
    exact Or.inr ih

theorem strHasSub_append_right (a b p : String) (h : strHasSub b p = true) :
    strHasSub (a ++ b) p = true := by
  unfold strHasSub at h ⊢
  rw [stringData_append]
  exact listHasSub_append _ _ _ h

theorem availableStr_has_keys :
    SCRAPERS_keys.all (fun k => strHasSub availableStr k) = true := by decide

/- ---------------------------------------------------------------------
Record invariants: identifier namespacing and coordinate pairing. -/

/-- The identifier carries the region code as prefix. -/
def idHasCode (s : School) (code : String) : Prop :=
  ∃ r, s.id = PyVal.str (code ++ r)

/-- Latitude is set exactly when longitude is. -/
def coordPaired (s : School) : Prop :=
  s.latitude = PyVal.none ↔ s.longitude = PyVal.none

/-- Neither coordinate is ever set. -/
def coordAbsent (s : School) : Prop :=
  s.latitude = PyVal.none ∧ s.longitude = PyVal.none

theorem mapME_forall {α β : Type} (g : α → Except String β) (P : β → Prop)
    (hg : ∀ a b, g a = Except.ok b → P b) :
    ∀ xs ys, mapME g xs = Except.ok ys → ∀ y ∈ ys, P y := by
  intro xs
  induction xs with
  | nil =>
    intro ys h y hy
    rw [mapME] at h
    cases h
    cases hy
  | cons a rest ih =>
    intro ys h y hy
    rw [mapME] at h
    cases ha : g a with
    | error e => rw [ha] at h; cases h
    | ok b =>
      rw [ha] at h
      cases hrest : mapME g rest with
      | error e => rw [hrest] at h; cases h
      | ok bs =>
        rw [hrest] at h
        cases h
        rcases List.mem_cons.mp hy with rfl | hmem
        · exact hg a y ha
        · exact ih bs hrest y hmem

theorem concatMapME_forall {α β : Type} (g : α → Except String (List β)) (P : β → Prop)
    (hg : ∀ a l, g a = Except.ok l → ∀ b ∈ l, P b) :
    ∀ xs ys, concatMapME g xs = Except.ok ys → ∀ y ∈ ys, P y := by
  intro xs
  induction xs with
  | nil =>
    intro ys h y hy
    rw [concatMapME] at h
    cases h
    cases hy
  | cons a rest ih =>
    intro ys h y hy
    rw [concatMapME] at h
    cases ha : g a with
    | error e => rw [ha] at h; cases h
    | ok l =>
      rw [ha] at h
      cases hrest : concatMapME g rest with
      | error e => rw [hrest] at h; cases h
      | ok more =>
        rw [hrest] at h
        cases h
        rcases List.mem_append.mp hy with hmem | hmem
        · exact hg a l ha y hmem
        · exact ih more hrest y hmem

theorem berlinSchool_id (f : PyVal) (s : School) (h : berlinSchool f = Except.ok s) :
    idHasCode s "BE-" := by
  unfold berlinSchool at h
  split at h
  · cases h
    exact ⟨_, rfl⟩
  · cases h

theorem scrape_berlin_spec (fetched : Except String PyVal) (l : List School)
    (h : scrape_berlin fetched = Except.ok l) : ∀ s ∈ l, idHasCode s "BE-" := by
  unfold scrape_berlin at h
  split at h
  · cases h
  · split at h
    · cases h
    · exact mapME_forall berlinSchool _ berlinSchool_id _ l h

theorem bwSchoolId_code (disch uuid : PyVal) :
    ∃ r, bwSchoolId disch uuid = "BW-" ++ r := by
  unfold bwSchoolId
  split
  · exact ⟨_, rfl⟩
  · exact ⟨"UUID-" ++ pyStr uuid, rfl⟩

theorem bwSchool_id (f : PyVal) (s : School) (h : bwSchool f = Except.ok s) :
    idHasCode s "BW-" := by
  unfold bwSchool at h
  repeat' (first | split at h | cases h | simp only [] at h)
  all_goals
    obtain ⟨r, hr⟩ := bwSchoolId_code _ _
    exact ⟨r, congrArg PyVal.str hr⟩

theorem scrape_baden_wuerttemberg_spec (fetched : Except String PyVal) (l : List School)
    (h : scrape_baden_wuerttemberg fetched = Except.ok l) : ∀ s ∈ l, idHasCode s "BW-" := by
  unfold scrape_baden_wuerttemberg at h
  repeat' split at h
  · cases h
  · cases h
  · cases h
  · exact mapME_forall bwSchool _ bwSchool_id _ l h

theorem brandenburgSchool_id (f : PyVal) (s : School)
    (h : brandenburgSchool f = Except.ok s) : idHasCode s "BB-" := by
  unfold brandenburgSchool at h
  repeat' (first | split at h | cases h | simp only [] at h)
  all_goals exact ⟨_, rfl⟩

theorem scrape_brandenburg_spec (fetched : Except String PyVal) (l : List School)
    (h : scrape_brandenburg fetched = Except.ok l) : ∀ s ∈ l, idHasCode s "BB-" := by
  unfold scrape_brandenburg at h
  repeat' split at h
  · cases h
  · cases h
  · exact mapME_forall brandenburgSchool _ brandenburgSchool_id _ l h

theorem hamburgSchool_id (f : PyVal) (s : School)
    (h : hamburgSchool f = Except.ok s) : idHasCode s "HH-" := by
  unfold hamburgSchool at h
  repeat' (first | split at h | cases h | simp only [] at h)
  all_goals exact ⟨_, rfl⟩

theorem scrape_hamburg_loop_spec (fetchj : String → Except String PyVal) :
    ∀ urls l, scrape_hamburg_loop fetchj urls = Except.ok l →
      ∀ s ∈ l, idHasCode s "HH-" := by
  intro urls
  induction urls with
  | nil => intro l h s hs; cases h; cases hs
  | cons url rest ih =>
    intro l h s hs
    rw [scrape_hamburg_loop] at h
    cases h1 : fetchj url with
    | error e => simp only [h1] at h; cases h
    | ok data =>
      simp only [h1] at h
      cases h2 : parse_geojson_features data with
      | error e => simp only [h2] at h; cases h
      | ok feats =>
        simp only [h2] at h
        cases h3 : mapME hamburgSchool feats with
        | error e => simp only [h3] at h; cases h
        | ok schools =>
          simp only [h3] at h
          cases h4 : scrape_hamburg_loop fetchj rest with
          | error e => simp only [h4] at h; cases h
          | ok more =>
            simp only [h4, Except.ok.injEq] at h
            subst h
            rcases List.mem_append.mp hs with hmem | hmem
            · exact mapME_forall hamburgSchool _ hamburgSchool_id _ _ h3 s hmem
            · exact ih more h4 s hmem

theorem scrape_hamburg_spec (fetchj : String → Except String PyVal) (l : List School)
    (h : scrape_hamburg fetchj = Except.ok l) : ∀ s ∈ l, idHasCode s "HH-" :=
  scrape_hamburg_loop_spec fetchj hamburg_urls l h

theorem saarlandSchool_id (f : PyVal) (s : School)
    (h : saarlandSchool f = Except.ok s) : idHasCode s "SL-" := by
  unfold saarlandSchool at h
  repeat' (first | split at h | cases h | simp only [] at h)
  all_goals exact ⟨_, rfl⟩

theorem scrape_saarland_spec (fetched : Except String PyVal) (l : List School)
    (h : scrape_saarland fetched = Except.ok l) : ∀ s ∈ l, idHasCode s "SL-" := by
  unfold scrape_saarland at h
  repeat' split at h
  · cases h
  · cases h
  · exact mapME_forall saarlandSchool _ saarlandSchool_id _ l h

theorem sachsenSchool_id (types : List (Int × PyVal)) (f : PyVal) (s : School)
    (h : sachsenSchool types f = Except.ok s) : idHasCode s "SN-" := by
  unfold sachsenSchool at h
  repeat' (first | split at h | cases h | simp only [] at h)
  all_goals exact ⟨_, rfl⟩

theorem scrape_sachsen_spec (tf sf : Except String PyVal) (l : List School)
    (h : scrape_sachsen tf sf = Except.ok l) : ∀ s ∈ l, idHasCode s "SN-" := by
  unfold scrape_sachsen at h
  repeat' split at h
  · cases h
  · cases h
  · cases h
  · exact mapME_forall (sachsenSchool _) _ (sachsenSchool_id _) _ l h

theorem stId_code (sid : String) :
    ∃ r, PyVal.str ("ST-ARC" ++ sid) = PyVal.str ("ST-" ++ r) :=
  ⟨"ARC" ++ sid, rfl⟩

theorem stCoords_paired (tr : Rat → Rat → Rat × Rat) (geom : PyVal)
    (c : PyVal × PyVal) (h : stCoords tr geom = Except.ok c) :
    (c.2 = PyVal.none ↔ c.1 = PyVal.none) := by
  unfold stCoords at h
  repeat' (first | split at h | cases h | simp only [] at h)
  · simp
  · simp

theorem stSchool_spec (tr : Rat → Rat → Rat × Rat) (f : PyVal) (s : School)
    (h : stSchool tr f = Except.ok s) : idHasCode s "ST-" ∧ coordPaired s := by
  unfold stSchool at h
  cases h1 : pyIndexKey f "attributes" with
  | error e => simp only [h1] at h; cases h
  | ok attrs =>
    simp only [h1] at h
    cases h2 : pyGetDE f "geometry" (PyVal.dict []) with
    | error e => simp only [h2] at h; cases h
    | ok geom =>
      simp only [h2] at h
      cases h3 : stCoords tr geom with
      | error e => simp only [h3] at h; cases h
      | ok coords =>
        simp only [h3] at h
        have hp := stCoords_paired tr geom coords h3
        repeat' (first | split at h | cases h | simp only [] at h)
        exact ⟨stId_code _, hp⟩

theorem scrape_sachsen_anhalt_spec (tr : Rat → Rat → Rat × Rat)
    (fetched : Except String PyVal) (l : List School)
    (h : scrape_sachsen_anhalt tr fetched = Except.ok l) :
    ∀ s ∈ l, idHasCode s "ST-" ∧ coordPaired s := by
  unfold scrape_sachsen_anhalt at h
  repeat' split at h
  · cases h
  · cases h
  · cases h
  · exact mapME_forall (stSchool tr) _ (stSchool_spec tr) _ l h

theorem bayernSchool_id (m : PyVal) (s : School)
    (h : bayernSchool m = Except.ok s) : idHasCode s "BY-" := by
  unfold bayernSchool at h
  repeat' (first | split at h | cases h | simp only [] at h)
  all_goals exact ⟨_, rfl⟩

theorem scrape_bayern_spec (fetchedXml : Except String PyVal) (l : List School)
    (h : scrape_bayern fetchedXml = Except.ok l) : ∀ s ∈ l, idHasCode s "BY-" := by
  unfold scrape_bayern at h
  repeat' split at h
  · cases h
  · cases h
  · exact mapME_forall bayernSchool _ bayernSchool_id _ l h

theorem thSchool_id (m : PyVal) (s : School)
    (h : thSchool m = Except.ok s) : idHasCode s "TH-" := by
  unfold thSchool at h
  repeat' (first | split at h | cases h | simp only [] at h)
  all_goals exact ⟨_, rfl⟩

theorem scrape_thueringen_spec (fetchedXml : Except String PyVal) (l : List School)
    (h : scrape_thueringen fetchedXml = Except.ok l) : ∀ s ∈ l, idHasCode s "TH-" := by
  unfold scrape_thueringen at h
  repeat' split at h
  · cases h
  · cases h
  · exact mapME_forall thSchool _ thSchool_id _ l h

theorem build_mv_school_id (item : PyVal) (s : School)
    (h : build_mv_school item = Except.ok s) : idHasCode s "MV-" := by
  unfold build_mv_school at h
  repeat' (first | split at h | cases h | simp only [] at h)
  all_goals exact ⟨_, rfl⟩

theorem mvInnerSchool_id (im : PyVal) (s : School)
    (h : mvInnerSchool im = Except.ok s) : idHasCode s "MV-" := by
  unfold mvInnerSchool at h
  repeat' split at h
  · cases h
  · cases h
  · exact build_mv_school_id _ s h

theorem mvProcessMember_spec (m : PyVal) (l : List School)
    (h : mvProcessMember m = Except.ok l) : ∀ s ∈ l, idHasCode s "MV-" := by
  unfold mvProcessMember at h
  repeat' split at h
  · cases h
  · cases h
  · cases h
  · exact mapME_forall mvInnerSchool _ mvInnerSchool_id _ l h
  · cases h
  · intro s hs
    cases h
    rcases List.mem_singleton.mp hs with rfl
    next heq => exact mvInnerSchool_id _ _ heq

theorem scrape_mecklenburg_vorpommern_spec (fetchedXml : Except String PyVal)
    (l : List School) (h : scrape_mecklenburg_vorpommern fetchedXml = Except.ok l) :
    ∀ s ∈ l, idHasCode s "MV-" := by
  unfold scrape_mecklenburg_vorpommern at h
  repeat' split at h
  · cases h
  · cases h
  · cases h
  · exact concatMapME_forall mvProcessMember _ mvProcessMember_spec _ l h

theorem nrwCoords_paired (o : PyVal → PyVal → PyVal → Option (Rat × Rat))
    (src r h : PyVal) :
    ((nrwCoords o src r h).1 = PyVal.none ↔ (nrwCoords o src r h).2 = PyVal.none) := by
  unfold nrwCoords
  cases o src r h <;> simp

theorem nrwSchool_spec (m1 m2 m3 : List (String × String))
    (o : PyVal → PyVal → PyVal → Option (Rat × Rat)) (item : PyVal) (s : School)
    (h : nrwSchool m1 m2 m3 o item = Except.ok s) :
    idHasCode s "NW-" ∧ coordPaired s := by
  unfold nrwSchool at h
  repeat' (first | split at h | cases h | simp only [] at h)
  all_goals exact ⟨⟨_, rfl⟩, nrwCoords_paired o _ _ _⟩

theorem scrape_nordrhein_westfalen_spec (mf rf sf tf : Except String String)
    (o : PyVal → PyVal → PyVal → Option (Rat × Rat)) (l : List School)
    (h : scrape_nordrhein_westfalen mf rf sf tf o = Except.ok l) :
    ∀ s ∈ l, idHasCode s "NW-" ∧ coordPaired s := by
  unfold scrape_nordrhein_westfalen at h
  repeat' (first | split at h | simp only [] at h)
  · cases h
  · cases h
  · exact mapME_forall (nrwSchool _ _ _ o) _ (nrwSchool_spec _ _ _ o) _ l h

theorem shSchool_id (row : PyVal) (s : School)
    (h : shSchool row = Except.ok s) : idHasCode s "SH-" := by
  unfold shSchool at h
  repeat' (first | split at h | cases h | simp only [] at h)
  all_goals exact ⟨_, rfl⟩

theorem scrape_schleswig_holstein_spec (fetched : Except String String) (l : List School)
    (h : scrape_schleswig_holstein fetched = Except.ok l) : ∀ s ∈ l, idHasCode s "SH-" := by
  unfold scrape_schleswig_holstein at h
  repeat' split at h
  · cases h
  · exact mapME_forall shSchool _ shSchool_id _ l h

theorem niBuild_spec (schulnr item : PyVal) (s : School)
    (h : niBuild schulnr item = Except.ok s) :
    idHasCode s "NI-" ∧ coordAbsent s := by
  unfold niBuild at h
  repeat' (first | split at h | cases h | simp only [] at h)
  all_goals exact ⟨⟨_, rfl⟩, rfl, rfl⟩

theorem niLoop_spec (o : String → Except String PyVal) :
    ∀ items l, niLoop o items = Except.ok l →
      ∀ s ∈ l, idHasCode s "NI-" ∧ coordAbsent s := by
  intro items
  induction items with
  | nil => intro l h s hs; cases h; cases hs
  | cons a rest ih =>
    intro l h s hs
    rw [niLoop] at h
    cases h1 : pyGetDE a "schulnr" PyVal.none with
    | error e => simp only [h1] at h; cases h
    | ok schulnr =>
      simp only [h1] at h
      by_cases ht : pyTruthy schulnr = true
      · simp only [ht, Bool.not_true, Bool.false_eq_true, if_false] at h
        cases h2 : o (pyStr schulnr) with
        | error e =>
          simp only [h2] at h
          exact ih l h s hs
        | ok item =>
          simp only [h2] at h
          cases h3 : niBuild schulnr item with
          | error e => simp only [h3] at h; cases h
          | ok sch =>
            simp only [h3] at h
            cases h4 : niLoop o rest with
            | error e => simp only [h4] at h; cases h
            | ok more =>
              simp only [h4, Except.ok.injEq] at h
              subst h
              rcases List.mem_cons.mp hs with rfl | hmem
              · exact niBuild_spec _ _ _ h3
              · exact ih more h4 s hmem
      · have ht2 : pyTruthy schulnr = false := by
          cases hv : pyTruthy schulnr
          · rfl
          · exact absurd hv ht
        simp only [ht2, Bool.not_false, if_true] at h
        exact ih l h s hs

theorem scrape_niedersachsen_spec (sf : Except String (Option String))
    (pf : Except String PyVal) (o : String → Except String PyVal) (l : List School)
    (h : scrape_niedersachsen sf pf o = Except.ok l) :
    ∀ s ∈ l, idHasCode s "NI-" ∧ coordAbsent s := by
  unfold scrape_niedersachsen at h
  repeat' (first | split at h | simp only [] at h)
  all_goals try exact niLoop_spec o _ l h
  all_goals cases h
  all_goals intro s hs; cases hs

theorem loopStepME_forall {α β : Type} (g : α → Except String (Option β)) (P : β → Prop)
    (hg : ∀ a b, g a = Except.ok (some b) → P b) :
    ∀ xs ys, loopStepME g xs = Except.ok ys → ∀ y ∈ ys, P y := by
  intro xs
  induction xs with
  | nil => intro ys h y hy; cases h; cases hy
  | cons a rest ih =>
    intro ys h y hy
    rw [loopStepME] at h
    cases ha : g a with
    | error e => simp only [ha] at h; cases h
    | ok ob =>
      simp only [ha] at h
      cases ob with
      | none => exact ih ys h y hy
      | some b =>
        cases hrest : loopStepME g rest with
        | error e => simp only [hrest] at h; cases h
        | ok more =>
          simp only [hrest, Except.ok.injEq] at h
          subst h
          rcases List.mem_cons.mp hy with rfl | hmem
          · exact hg a y ha
          · exact ih more hrest y hmem

theorem bremenSchoolOf_spec (coll : PyVal) (s : School)
    (h : bremenSchoolOf coll = Except.ok s) : idHasCode s "HB-" ∧ coordAbsent s := by
  unfold bremenSchoolOf at h
  repeat' (first | split at h | cases h | simp only [] at h)
  all_goals exact ⟨⟨_, rfl⟩, rfl, rfl⟩

theorem bremenStep_spec (o : String → Except String BremenDetail) (link : BsTag)
    (s : School) (h : bremenStep o link = Except.ok (some s)) :
    idHasCode s "HB-" ∧ coordAbsent s := by
  unfold bremenStep at h
  repeat' (first | split at h | cases h | simp only [] at h)
  all_goals
    rename_i heq
    exact bremenSchoolOf_spec _ _ heq

theorem scrape_bremen_spec (lf : Except String (List BsTag))
    (o : String → Except String BremenDetail) (l : List School)
    (h : scrape_bremen lf o = Except.ok l) :
    ∀ s ∈ l, idHasCode s "HB-" ∧ coordAbsent s := by
  unfold scrape_bremen at h
  split at h
  · cases h
  · exact loopStepME_forall (bremenStep o) _ (bremenStep_spec o) _ l h

theorem hessenCoords_paired (x : Option String) :
    ((hessenCoords x).1 = PyVal.none ↔ (hessenCoords x).2 = PyVal.none) := by
  unfold hessenCoords
  repeat' split
  all_goals simp

theorem hessenStep_spec (o : String → Except String HessenDetail) (url : String)
    (s : School) (h : hessenStep o url = Except.ok (some s)) :
    idHasCode s "HE-" ∧ coordPaired s := by
  unfold hessenStep at h
  repeat' (first | split at h | cases h | simp only [] at h)
  all_goals exact ⟨⟨_, rfl⟩, hessenCoords_paired _⟩

theorem scrape_hessen_spec (lf : Except String HessenListPage)
    (so : String → Except String (List String))
    (o : String → Except String HessenDetail) (l : List School)
    (h : scrape_hessen lf so o = Except.ok l) :
    ∀ s ∈ l, idHasCode s "HE-" ∧ coordPaired s := by
  unfold scrape_hessen at h
  repeat' split at h
  · cases h
  · cases h
  · exact loopStepME_forall (hessenStep o) _ (hessenStep_spec o) _ l h

theorem rlpGeoSchool_id (f : PyVal) (s : School)
    (h : rlpGeoSchool f = Except.ok s) : idHasCode s "RP-" := by
  unfold rlpGeoSchool at h
  repeat' (first | split at h | cases h | simp only [] at h)
  all_goals exact ⟨_, rfl⟩

theorem parse_rlp_geoportal_spec (data : PyVal) (l : List School)
    (h : parse_rlp_geoportal data = Except.ok l) : ∀ s ∈ l, idHasCode s "RP-" := by
  unfold parse_rlp_geoportal at h
  split at h
  · cases h
  · exact mapME_forall rlpGeoSchool _ rlpGeoSchool_id _ l h

theorem rlpStep_spec (o : String → Except String RlpDetail) (link : String)
    (s : School) (h : rlpStep o link = Except.ok (some s)) : idHasCode s "RP-" := by
  unfold rlpStep at h
  repeat' (first | split at h | cases h | simp only [] at h)
  all_goals exact ⟨_, rfl⟩

theorem scrape_rlp_html_spec (lf : Except String (List String))
    (o : String → Except String RlpDetail) (l : List School)
    (h : scrape_rlp_html lf o = Except.ok l) : ∀ s ∈ l, idHasCode s "RP-" := by
  unfold scrape_rlp_html at h
  split at h
  · cases h
  · exact loopStepME_forall (rlpStep o) _ (rlpStep_spec o) _ l h

theorem scrape_rheinland_pfalz_spec (pf : Except String PyVal)
    (lf : Except String (List String)) (o : String → Except String RlpDetail)
    (l : List School) (h : scrape_rheinland_pfalz pf lf o = Except.ok l) :
    ∀ s ∈ l, idHasCode s "RP-" := by
  unfold scrape_rheinland_pfalz at h
  split at h
  · next heq =>
    split at heq
    · cases heq
    · cases h
      exact parse_rlp_geoportal_spec _ l heq
  · exact scrape_rlp_html_spec lf o l h

/- ---------------------------------------------------------------------
Transport-layer case analysis. -/

theorem fetch_cases {α : Type u} (t : Nat → Except String α) :
    fetch t =
      match t 0 with
      | Except.ok r => (Except.ok r, ([] : List Nat))
      | Except.error _ =>
        match t 1 with
        | Except.ok r => (Except.ok r, [2])
        | Except.error _ =>
          match t 2 with
          | Except.ok r => (Except.ok r, [2, 4])
          | Except.error e => (Except.error e, [2, 4]) := by
  have hr : List.range MAX_RETRIES = [0, 1, 2] := by decide
  rw [fetch, hr]
  rcases h0 : t 0 with e0 | r0 <;> rcases h1 : t 1 with e1 | r1 <;>
    rcases h2 : t 2 with e2 | r2 <;>
    simp [fetchLoop, MAX_RETRIES, h0, h1, h2]

/- ---------------------------------------------------------------------
Claim theorems for the orchestrator, registry and transport. -/

/-- Claim C1: for every list of requested state keys and every behaviour
of the individual extractors (including every one of them raising),
scrape_all with on_error skip never raises; it returns exactly the
records gathered from the registered targets whose scraper succeeded,
and when at least one region failed the accumulated failure report is
non-empty and maps each failed region key to its error description (and
contains only genuine failures). -/
theorem claim_C1 (f : String → Except String (List School)) (states : Option (List String)) :
    ∃ schools errors,
      scrape_all f states "skip" = Except.ok (schools, errors)
      ∧ schools = gatheredFromSuccesses f (targetsOf states)
      ∧ errors = recordedFailures f (targetsOf states) []
      ∧ (∀ k e, f k = Except.error e →
          (∃ t ∈ targetsOf states, normKey t = k ∧ SCRAPERS_keys.contains k = true) →
          (k, e) ∈ errors)
      ∧ (∀ p ∈ errors, f p.1 = Except.error p.2 ∧ SCRAPERS_keys.contains p.1 = true)
      ∧ ((∃ t ∈ targetsOf states, SCRAPERS_keys.contains (normKey t) = true ∧
            ∃ e, f (normKey t) = Except.error e) → errors ≠ []) := by
  refine ⟨gatheredFromSuccesses f (targetsOf states),
    recordedFailures f (targetsOf states) [], ?_, rfl, rfl, ?_, ?_, ?_⟩
  · rw [scrape_all]
    rw [scrapeAllLoop_skip f "skip" rfl (targetsOf states) [] []]
    rw [List.nil_append]
  · intro k e hf hex
    exact recordedFailures_mem f _ [] k e hf (Or.inr hex)
  · exact recordedFailures_consistent f _ [] (by intro p hp; cases hp)
  · rintro ⟨t, ht, hc, e, hf⟩
    exact List.ne_nil_of_mem
      (recordedFailures_mem f _ [] (normKey t) e hf (Or.inr ⟨t, ht, rfl, hc⟩))

/-- Witness for C1 at a concrete registry behaviour: berlin fails with
boom, everything else returns no records; the batch completes and the
report names berlin. -/
theorem claim_C1_witness :
    scrape_all (fun k => if k = "berlin" then Except.error "boom" else Except.ok [])
        (some ["berlin", "unknownland"]) "skip" =
      Except.ok ([], [("berlin", "boom")]) := by
  obtain ⟨schools, errors, h1, h2, h3, _, _, _⟩ :=
    claim_C1 (fun k => if k = "berlin" then Except.error "boom" else Except.ok [])
      (some ["berlin", "unknownland"])
  subst h2
  subst h3
  rw [h1]
  rfl

/-- Claim C3: registry lookup is case-insensitive and trims surrounding
whitespace — scrape_state dispatches on the normalised key, so BERLIN
with a trailing blank and berlin invoke the same extractor; for every
input whose normalised form is not registered it raises the
unknown-state ValueError whose message lists all sixteen valid keys; and
a fatal failure raised by the invoked extractor propagates unmodified. -/
theorem claim_C3 (f : String → Except String (List School)) (s : String) :
    (SCRAPERS_keys.contains (normKey s) = true → scrape_state f s = f (normKey s))
    ∧ (SCRAPERS_keys.contains (normKey s) = false →
        scrape_state f s = Except.error (unknownStateMsg s)
        ∧ ∀ k ∈ SCRAPERS_keys, strHasSub (unknownStateMsg s) k = true)
    ∧ scrape_state f "BERLIN " = scrape_state f "berlin"
    ∧ (∀ e, SCRAPERS_keys.contains (normKey s) = true →
        f (normKey s) = Except.error e → scrape_state f s = Except.error e) := by
  refine ⟨?_, ?_, ?_, ?_⟩
  · intro h; rw [scrape_state]; simp only [h, if_true]
  · intro h
    constructor
    · rw [scrape_state]; simp only [h, Bool.false_eq_true, if_false]
    · intro k hk
      rw [unknownStateMsg]
      apply strHasSub_append_right
      exact List.all_eq_true.mp availableStr_has_keys k hk
  · have hn1 : normKey "BERLIN " = "berlin" := by decide
    have hn2 : normKey "berlin" = "berlin" := by decide
    have hc : SCRAPERS_keys.contains "berlin" = true := by decide
    rw [scrape_state, scrape_state]
    simp only [hn1, hn2, hc, if_true]
  · intro e h hf; rw [scrape_state]; simp only [h, if_true, hf]

/-- Witness for C3 at concrete inputs: atlantis is rejected with a
message that mentions every registered key. -/
theorem claim_C3_witness :
    scrape_state (fun _ => Except.ok ([] : List School)) "atlantis" =
        Except.error (unknownStateMsg "atlantis")
      ∧ ∀ k ∈ SCRAPERS_keys, strHasSub (unknownStateMsg "atlantis") k = true :=
  (claim_C3 (fun _ => Except.ok []) "atlantis").2.1 (by decide)

/-- Claim C4: with on_error raise, the first fatal error among the
requested targets propagates immediately and no region after it is
attempted (the result is the same for every behaviour of the later
scrapers); with on_error skip the same failure is recorded under the
region's key and that region contributes zero records. -/
theorem claim_C4 (f : String → Except String (List School))
    (pre post : List String) (s e : String)
    (hpre : ∀ t ∈ pre, SCRAPERS_keys.contains (normKey t) = true →
      ∃ l, f (normKey t) = Except.ok l)
    (hcs : SCRAPERS_keys.contains (normKey s) = true)
    (hfs : f (normKey s) = Except.error e) :
    scrape_all f (some (pre ++ s :: post)) "raise" = Except.error e
    ∧ ∃ out, scrape_all f (some (pre ++ s :: post)) "skip" = Except.ok out
        ∧ (normKey s, e) ∈ out.2
        ∧ out.1 = gatheredFromSuccesses f pre ++ gatheredFromSuccesses f post := by
  have htar : targetsOf (some (pre ++ s :: post)) = pre ++ s :: post := by
    rw [targetsOf]
    cases hpp : pre ++ s :: post with
    | nil => exact absurd hpp (by simp)
    | cons a l => rfl
  constructor
  · rw [scrape_all, htar]
    exact scrapeAllLoop_raise f pre s post e [] [] hpre hcs hfs
  · refine ⟨(gatheredFromSuccesses f (pre ++ s :: post),
      recordedFailures f (pre ++ s :: post) []), ?_, ?_, ?_⟩
    · rw [scrape_all, htar, scrapeAllLoop_skip f "skip" rfl _ [] [], List.nil_append]
    · exact recordedFailures_mem f _ [] (normKey s) e hfs
        (Or.inr ⟨s, by simp, rfl, hcs⟩)
    · show gatheredFromSuccesses f (pre ++ s :: post) = _
      rw [gatheredFromSuccesses_append, gatheredFromSuccesses]
      simp only [hcs, if_true, hfs]

/-- Witness for C4 at a concrete behaviour: berlin succeeds, bayern
fails with http 500 and bremen follows; raise mode propagates the error,
skip mode records it. -/
theorem claim_C4_witness :
    scrape_all (fun k => if k = "bayern" then Except.error "http 500" else Except.ok [])
        (some (["berlin"] ++ "bayern" :: ["bremen"])) "raise" = Except.error "http 500"
    ∧ ∃ out,
        scrape_all (fun k => if k = "bayern" then Except.error "http 500" else Except.ok [])
          (some (["berlin"] ++ "bayern" :: ["bremen"])) "skip" = Except.ok out
        ∧ ("bayern", "http 500") ∈ out.2
        ∧ out.1 = gatheredFromSuccesses
              (fun k => if k = "bayern" then Except.error "http 500" else Except.ok [])
              ["berlin"]
            ++ gatheredFromSuccesses
              (fun k => if k = "bayern" then Except.error "http 500" else Except.ok [])
              ["bremen"] := by
  have h := claim_C4 (fun k => if k = "bayern" then Except.error "http 500" else Except.ok [])
    ["berlin"] ["bremen"] "bayern" "http 500"
    (by
      intro t ht _
      have : t = "berlin" := by simpa using ht
      subst this
      exact ⟨[], rfl⟩)
    (by decide) rfl
  simpa using h

/-- Claim C5: utils.fetch makes at most MAX_RETRIES = 3 attempts (its
outcome is independent of the transport beyond the first three attempts
and it sleeps at most twice), waits two to the power of the attempt
number between consecutive attempts — so when the first two attempts
fail and the third succeeds it returns the third response after waits of
2 and 4 time-units — and when all three attempts fail it raises the last
underlying error. -/
theorem claim_C5 :
    (∀ (α : Type) (t t' : Nat → Except String α),
        (∀ i, i < MAX_RETRIES → t i = t' i) → fetch t = fetch t')
    ∧ (∀ (α : Type) (t : Nat → Except String α) (e0 e1 : String) (r : α),
        t 0 = Except.error e0 → t 1 = Except.error e1 → t 2 = Except.ok r →
        fetch t = (Except.ok r, [2 ^ 1, 2 ^ 2]))
    ∧ (∀ (α : Type) (t : Nat → Except String α) (e0 e1 e2 : String),
        t 0 = Except.error e0 → t 1 = Except.error e1 → t 2 = Except.error e2 →
        fetch t = (Except.error e2, [2 ^ 1, 2 ^ 2]))
    ∧ (∀ (α : Type) (t : Nat → Except String α),
        (fetch t).2.length + 1 ≤ MAX_RETRIES) := by
  refine ⟨?_, ?_, ?_, ?_⟩
  · intro α t t' h
    rw [fetch_cases t, fetch_cases t',
      h 0 (by decide), h 1 (by decide), h 2 (by decide)]
  · intro α t e0 e1 r h0 h1 h2
    rw [fetch_cases t, h0, h1, h2]
    norm_num
  · intro α t e0 e1 e2 h0 h1 h2
    rw [fetch_cases t, h0, h1, h2]
    norm_num
  · intro α t
    rw [fetch_cases t]
    rcases t 0 with e0 | r0 <;> rcases t 1 with e1 | r1 <;>
      rcases t 2 with e2 | r2 <;> simp [MAX_RETRIES]

/-- Witness for C5 at a concrete transport that fails twice and then
succeeds: the third response is returned after waits 2 and 4. -/
theorem claim_C5_witness :
    fetch (fun i => if i = 2 then Except.ok (37 : Nat) else Except.error "timeout") =
      (Except.ok 37, [2 ^ 1, 2 ^ 2]) :=
  claim_C5.2.1 Nat (fun i => if i = 2 then Except.ok 37 else Except.error "timeout")
    "timeout" "timeout" 37 rfl rfl rfl

/-- Region keys paired with the fixed identifier code each scraper
interpolates into its record ids. -/
def regionCodes : List (String × String) :=
  [("baden-wuerttemberg", "BW"), ("bayern", "BY"), ("berlin", "BE"),
   ("brandenburg", "BB"), ("bremen", "HB"), ("hamburg", "HH"),
   ("hessen", "HE"), ("mecklenburg-vorpommern", "MV"),
   ("niedersachsen", "NI"), ("nordrhein-westfalen", "NW"),
   ("rheinland-pfalz", "RP"), ("saarland", "SL"), ("sachsen", "SN"),
   ("sachsen-anhalt", "ST"), ("schleswig-holstein", "SH"),
   ("thueringen", "TH")]

/-- Claim C2: for every region among the sixteen and every upstream
payload, every record returned by that region's scraper has an
identifier of the form region code, dash, source-native key — it begins
with the region's fixed two-letter code followed by a dash — and the
sixteen codes are pairwise distinct, so identifiers from different
regions never collide. -/
theorem claim_C2 :
    List.Pairwise (fun a b => a.2 ≠ b.2) regionCodes
    ∧ regionCodes.map Prod.fst = SCRAPERS_keys
    ∧ (∀ pf l, scrape_baden_wuerttemberg pf = Except.ok l → ∀ s ∈ l, idHasCode s "BW-")
    ∧ (∀ xf l, scrape_bayern xf = Except.ok l → ∀ s ∈ l, idHasCode s "BY-")
    ∧ (∀ pf l, scrape_berlin pf = Except.ok l → ∀ s ∈ l, idHasCode s "BE-")
    ∧ (∀ pf l, scrape_brandenburg pf = Except.ok l → ∀ s ∈ l, idHasCode s "BB-")
    ∧ (∀ lf o l, scrape_bremen lf o = Except.ok l → ∀ s ∈ l, idHasCode s "HB-")
    ∧ (∀ fj l, scrape_hamburg fj = Except.ok l → ∀ s ∈ l, idHasCode s "HH-")
    ∧ (∀ lf so o l, scrape_hessen lf so o = Except.ok l → ∀ s ∈ l, idHasCode s "HE-")
    ∧ (∀ xf l, scrape_mecklenburg_vorpommern xf = Except.ok l → ∀ s ∈ l, idHasCode s "MV-")
    ∧ (∀ sf pf o l, scrape_niedersachsen sf pf o = Except.ok l → ∀ s ∈ l, idHasCode s "NI-")
    ∧ (∀ mf rf sf tf o l, scrape_nordrhein_westfalen mf rf sf tf o = Except.ok l →
        ∀ s ∈ l, idHasCode s "NW-")
    ∧ (∀ pf lf o l, scrape_rheinland_pfalz pf lf o = Except.ok l → ∀ s ∈ l, idHasCode s "RP-")
    ∧ (∀ pf l, scrape_saarland pf = Except.ok l → ∀ s ∈ l, idHasCode s "SL-")
    ∧ (∀ tf sf l, scrape_sachsen tf sf = Except.ok l → ∀ s ∈ l, idHasCode s "SN-")
    ∧ (∀ tr pf l, scrape_sachsen_anhalt tr pf = Except.ok l → ∀ s ∈ l, idHasCode s "ST-")
    ∧ (∀ f l, scrape_schleswig_holstein f = Except.ok l → ∀ s ∈ l, idHasCode s "SH-")
    ∧ (∀ xf l, scrape_thueringen xf = Except.ok l → ∀ s ∈ l, idHasCode s "TH-") := by
  refine ⟨by decide, rfl, ?_, ?_, ?_, ?_, ?_, ?_, ?_, ?_, ?_, ?_, ?_, ?_, ?_, ?_, ?_, ?_⟩
  · exact scrape_baden_wuerttemberg_spec
  · exact scrape_bayern_spec
  · exact scrape_berlin_spec
  · exact scrape_brandenburg_spec
  · exact fun lf o l h s hs => (scrape_bremen_spec lf o l h s hs).1
  · exact scrape_hamburg_spec
  · exact fun lf so o l h s hs => (scrape_hessen_spec lf so o l h s hs).1
  · exact scrape_mecklenburg_vorpommern_spec
  · exact fun sf pf o l h s hs => (scrape_niedersachsen_spec sf pf o l h s hs).1
  · exact fun mf rf sf tf o l h s hs => (scrape_nordrhein_westfalen_spec mf rf sf tf o l h s hs).1
  · exact scrape_rheinland_pfalz_spec
  · exact scrape_saarland_spec
  · exact scrape_sachsen_spec
  · exact fun tr pf l h s hs => (scrape_sachsen_anhalt_spec tr pf l h s hs).1
  · exact scrape_schleswig_holstein_spec
  · exact scrape_thueringen_spec

/-- A one-feature Berlin payload used as a concrete instance. -/
def c2wPayload : PyVal :=
  PyVal.dict [("features", PyVal.list
    [PyVal.dict [("properties", PyVal.dict [("bsn", PyVal.str "0001")]),
                 ("geometry", PyVal.dict [])]])]

/-- Witness for C2 at a concrete Berlin payload: the produced record's
identifier carries the BE code. -/
theorem claim_C2_witness :
    idHasCode (mkBerlinSchool (PyVal.dict [("bsn", PyVal.str "0001")])) "BE-" :=
  claim_C2.2.2.2.2.1 (Except.ok c2wPayload)
    [mkBerlinSchool (PyVal.dict [("bsn", PyVal.str "0001")])] rfl
    (mkBerlinSchool (PyVal.dict [("bsn", PyVal.str "0001")]))
    (List.mem_cons_self _ _)

/-- The Schleswig-Holstein csv text of the C7 counterexample: one row
with a latitude of 80 and no longitude column. -/
def c7Text : String := "id\tname\tlatitude\n1\tX\t80.0"

/-- Counterexample for C7: the SH extractor returns a record whose
latitude is set to 80 (outside the stated German bounds) while its
longitude is unset, so neither the pairing nor the bounds hold for
every record of every extractor. -/
theorem claim_C7_counterexample :
    (scrape_schleswig_holstein (Except.ok c7Text)).map
        (fun l => l.map (fun s => (s.latitude, s.longitude))) =
      Except.ok [(PyVal.num 80, PyVal.none)]
    ∧ ¬((47 : Rat) ≤ 80 ∧ (80 : Rat) ≤ 55) := by
  constructor
  · rfl
  · norm_num

/-- Claim C7 (amended): for the extractors whose coordinates come from
one conversion step (Nordrhein-Westfalen, Sachsen-Anhalt, Hessen),
latitude is set exactly when longitude is; Niedersachsen and Bremen
never set coordinates.  The remaining extractors copy coordinate fields
from the payload without validation, so latitude without longitude and
out-of-bounds values can be returned. -/
theorem claim_C7 :
    (∀ mf rf sf tf o l, scrape_nordrhein_westfalen mf rf sf tf o = Except.ok l →
        ∀ s ∈ l, coordPaired s)
    ∧ (∀ tr pf l, scrape_sachsen_anhalt tr pf = Except.ok l → ∀ s ∈ l, coordPaired s)
    ∧ (∀ lf so o l, scrape_hessen lf so o = Except.ok l → ∀ s ∈ l, coordPaired s)
    ∧ (∀ sf pf o l, scrape_niedersachsen sf pf o = Except.ok l → ∀ s ∈ l, coordAbsent s)
    ∧ (∀ lf o l, scrape_bremen lf o = Except.ok l → ∀ s ∈ l, coordAbsent s) := by
  refine ⟨?_, ?_, ?_, ?_, ?_⟩
  · exact fun mf rf sf tf o l h s hs => (scrape_nordrhein_westfalen_spec mf rf sf tf o l h s hs).2
  · exact fun tr pf l h s hs => (scrape_sachsen_anhalt_spec tr pf l h s hs).2
  · exact fun lf so o l h s hs => (scrape_hessen_spec lf so o l h s hs).2
  · exact fun sf pf o l h s hs => (scrape_niedersachsen_spec sf pf o l h s hs).2
  · exact fun lf o l h s hs => (scrape_bremen_spec lf o l h s hs).2

/-- A one-feature Sachsen-Anhalt payload without geometry. -/
def c7wPayload : PyVal :=
  PyVal.dict [("features", PyVal.list
    [PyVal.dict [("attributes", PyVal.dict []), ("geometry", PyVal.dict [])]])]

/-- Witness for C7 at a concrete Sachsen-Anhalt payload: the produced
record has both coordinates unset together. -/
theorem claim_C7_witness : coordPaired { id := PyVal.str "ST-ARC00000" } :=
  claim_C7.2.1 (fun x _ => (x, x)) (Except.ok c7wPayload)
    [{ id := PyVal.str "ST-ARC00000" }] rfl _ (List.mem_cons_self _ _)

/-- The two-feature Berlin payload of the C8 counterexample: one record
with a native key, one without. -/
def c8Payload : PyVal :=
  PyVal.dict [("features", PyVal.list
    [PyVal.dict [("properties", PyVal.dict [("bsn", PyVal.str "0001")])],
     PyVal.dict [("properties", PyVal.dict [("schulname", PyVal.str "No key")])]])]

/-- Counterexample for C8: the Berlin extractor does not skip the record
whose native key (bsn) is missing — it returns two records, the second
with the interpolated identifier BE-None. -/
theorem claim_C8_counterexample :
    (scrape_berlin (Except.ok c8Payload)).map (fun l => l.map (fun s => s.id)) =
      Except.ok [PyVal.str "BE-0001", PyVal.str "BE-None"] := rfl

/-- The search payload given to the Niedersachsen scraper for a pair of
school entries. -/
def niPayload (good bad : PyVal) : PyVal :=
  PyVal.dict [("props", PyVal.dict [("schools", PyVal.list [good, bad])])]

/-- Claim C8 (amended): the Niedersachsen extractor skips exactly the
records whose native key (schulnr) is missing or falsy: given one
well-formed and one keyless entry it returns exactly the well-formed
record.  Other extractors, such as Berlin, do not skip: a record
without its native key is emitted with the missing value interpolated
into the identifier (BE-None). -/
theorem claim_C8 :
    (∀ (o : String → Except String PyVal) good bad gnr bnr item sch,
      pyGetDE good "schulnr" PyVal.none = Except.ok gnr →
      pyTruthy gnr = true →
      pyGetDE bad "schulnr" PyVal.none = Except.ok bnr →
      pyTruthy bnr = false →
      o (pyStr gnr) = Except.ok item →
      niBuild gnr item = Except.ok sch →
      scrape_niedersachsen (Except.ok (some "XSRF-TOKEN=token"))
        (Except.ok (niPayload good bad)) o = Except.ok [sch])
    ∧ (∀ fs, dictFind fs "bsn" = Option.none →
        ∃ s, berlinSchool (PyVal.dict fs) = Except.ok s ∧ s.id = PyVal.str "BE-None") := by
  constructor
  · intro o good bad gnr bnr item sch h1 h2 h3 h4 h5 h6
    show niLoop o [good, bad] = Except.ok [sch]
    rw [niLoop]
    simp only [h1, h2, Bool.not_true, Bool.false_eq_true, if_false, h5, h6]
    rw [niLoop]
    simp only [h3, h4, Bool.not_false, if_true]
    rfl
  · intro fs hbsn
    refine ⟨mkBerlinSchool (PyVal.dict fs), rfl, ?_⟩
    show PyVal.str ("BE-" ++ pyStr ((dictFind fs "bsn").getD PyVal.none)) = PyVal.str "BE-None"
    rw [hbsn]
    rfl

/-- Witness for C8 at concrete entries: schulnr 123 is kept, the
keyless entry is skipped. -/
theorem claim_C8_witness :
    scrape_niedersachsen (Except.ok (some "XSRF-TOKEN=token"))
      (Except.ok (niPayload (PyVal.dict [("schulnr", PyVal.str "123")]) (PyVal.dict [])))
      (fun _ => Except.ok (PyVal.dict [])) =
      Except.ok [{ name := PyVal.str "", id := PyVal.str "NI-123" }] :=
  claim_C8.1 (fun _ => Except.ok (PyVal.dict []))
    (PyVal.dict [("schulnr", PyVal.str "123")]) (PyVal.dict [])
    (PyVal.str "123") PyVal.none (PyVal.dict [])
    { name := PyVal.str "", id := PyVal.str "NI-123" }
    rfl rfl rfl rfl rfl rfl

/-- The Bayern WFS document of the C6 failing input: one member whose
gml:pos holds unparseable numeric text. -/
def c6Payload : PyVal :=
  PyVal.dict [("wfs:FeatureCollection", PyVal.dict [("wfs:member", PyVal.list
    [PyVal.dict [("schul:SchulstandorteGrundschulen", PyVal.dict
      [("@gml:id", PyVal.str "b1"),
       ("schul:geometry", PyVal.dict [("gml:Point", PyVal.dict
         [("gml:pos", PyVal.str "abc def")])])])]])])]

/-- Claim C6 (code bug): a conversion failure on a record's coordinate
values is supposed to degrade to absent coordinates, but scrape_bayern
float-converts the gml:pos pieces without a guard, so unparseable
numeric text raises a ValueError out of the whole extraction. -/
theorem claim_C6 :
    scrape_bayern (Except.ok c6Payload) =
      Except.error "ValueError: could not convert string to float" := rfl

/-- Counterexample for C9: a failing reference-table fetch does not
degrade gracefully — scrape_sachsen propagates it before fetching any
school. -/
theorem claim_C9_counterexample :
    scrape_sachsen (Except.error "ConnectionError: key_tables")
      (Except.ok (PyVal.list [])) = Except.error "ConnectionError: key_tables" := rfl

/-- Claim C9 (amended): a failure to fetch the secondary reference table
is fatal to the region's extraction — scrape_sachsen propagates the
school-types fetch error and scrape_nordrhein_westfalen the key-mapping
fetch error — and when the table is available but lacks a code, the
lookup yields None, leaving the coded field unset rather than holding
the raw value. -/
theorem claim_C9 :
    (∀ (e : String) (sf : Except String PyVal),
      scrape_sachsen (Except.error e) sf = Except.error e)
    ∧ (∀ (e : String) (mf : String) (sf tf : Except String String)
        (o : PyVal → PyVal → PyVal → Option (Rat × Rat)),
        scrape_nordrhein_westfalen (Except.ok mf) (Except.error e) sf tf o = Except.error e)
    ∧ (∀ (types : List (Int × PyVal)) (k : Int), intDictFind types k = Option.none →
        sachsenTypeLookup types (PyVal.num (k : Rat)) = PyVal.none)
    ∧ (∀ (types : List (Int × PyVal)) (k : Int), intDictFind types k = Option.none →
        sachsenSchoolType types (PyVal.list [PyVal.num (k : Rat)]) = Except.ok PyVal.none) := by
  refine ⟨fun e sf => rfl, fun e mf sf tf o => rfl, ?_, ?_⟩
  · intro types k h
    simp only [sachsenTypeLookup, Rat.den_intCast, Rat.num_intCast, if_true, h, Option.getD]
  · intro types k h
    have hl : sachsenTypeLookup types (PyVal.num (k : Rat)) = PyVal.none := by
      simp only [sachsenTypeLookup, Rat.den_intCast, Rat.num_intCast, if_true, h, Option.getD]
    simp only [sachsenSchoolType, pyTruthy, List.isEmpty, Bool.not_false, if_true,
      pyIndexNth, List.get?, hl]

/-- Witness for C9 at concrete inputs: a failing types fetch propagates,
and the empty table resolves code 7 to None. -/
theorem claim_C9_witness :
    scrape_sachsen (Except.error "boom") (Except.ok (PyVal.list [])) = Except.error "boom"
    ∧ sachsenTypeLookup [] (PyVal.num ((7 : Int) : Rat)) = PyVal.none :=
  ⟨claim_C9.1 "boom" (Except.ok (PyVal.list [])), claim_C9.2.2.1 [] 7 rfl⟩

/-- Claim C10: calling scrape_all with the empty list of states behaves
identically to calling it with no states at all — the empty list is
falsy, so all sixteen registered regions are targeted rather than zero,
for every error policy. -/
theorem claim_C10 (f : String → Except String (List School)) (on_error : String) :
    scrape_all f (some []) on_error = scrape_all f Option.none on_error
    ∧ targetsOf (some []) = SCRAPERS_keys
    ∧ SCRAPERS_keys.length = 16 :=
  ⟨rfl, rfl, rfl⟩

end JedeschuleLite
